import Mathlib

/-!
SPIRE Workload API CSI driver: publish / unpublish handlers

A shallow embedding of the two CSI node servers of the repository

* `support/k8s/wlapi-csi-driver/driver.go`  (`Driver`, package `main`), and
* `pkg/agent/csi/csi.go`                    (`Plugin`, package `csi`),

together with the theorems that settle the claims made about them.

Conventions of the embedding

* A Go pointer that may be `nil` is an `Option`; a Go expression that may
  dereference `nil` evaluates in `Option`, `none` standing for the run-time panic.
* A Go `(resp, error)` pair is an `Except Status resp`.
* The operating system and the Go run-time library are outside the repository.
  They are an explicit parameter `Env σ` of every handler: `σ` is the state of
  the operating system, the four calls are state transformers on it, and the
  two text tables used by `fmt` (`%v` of an errno, `%q` of a string) are fields.
  Every call the handlers make is appended to a log (`World.log`).
-/

/-! ## gRPC status -/

/-- The gRPC status codes (`google.golang.org/grpc/codes`) used by the handlers. -/
inductive Code where
  | OK
  | InvalidArgument
  | Unimplemented
  | Internal
  deriving DecidableEq, Repr

/-- A gRPC status error: `status.Error(code, message)`. -/
structure Status where
  code : Code
  message : String
  deriving DecidableEq, Repr

/-! ## CSI messages (`github.com/container-storage-interface/spec/lib/go/csi`) -/

/-- `csi.VolumeCapability_MountVolume`. -/
structure MountVolume where
  FsType : String
  MountFlags : List String
  deriving DecidableEq, Repr

/-- `csi.VolumeCapability_BlockVolume` (no fields). -/
structure BlockVolume where
  deriving DecidableEq, Repr

/-- The oneof `VolumeCapability.access_type`: the wrapper `*VolumeCapability_Block`
or `*VolumeCapability_Mount`, each holding a pointer to its payload. -/
inductive AccessType where
  | Block (b : Option BlockVolume)
  | Mount (m : Option MountVolume)
  deriving DecidableEq, Repr

/-- `csi.VolumeCapability_AccessMode`; `Mode` is the `int32` enum value. -/
structure AccessMode where
  Mode : Int
  deriving DecidableEq, Repr

/-- `csi.VolumeCapability_AccessMode_UNKNOWN`. -/
def AccessMode_UNKNOWN : Int := 0
/-- `csi.VolumeCapability_AccessMode_SINGLE_NODE_WRITER`. -/
def AccessMode_SINGLE_NODE_WRITER : Int := 1
/-- `csi.VolumeCapability_AccessMode_SINGLE_NODE_READER_ONLY`. -/
def AccessMode_SINGLE_NODE_READER_ONLY : Int := 2
/-- `csi.VolumeCapability_AccessMode_MULTI_NODE_READER_ONLY`. -/
def AccessMode_MULTI_NODE_READER_ONLY : Int := 3
/-- `csi.VolumeCapability_AccessMode_MULTI_NODE_SINGLE_WRITER`. -/
def AccessMode_MULTI_NODE_SINGLE_WRITER : Int := 4
/-- `csi.VolumeCapability_AccessMode_MULTI_NODE_MULTI_WRITER`. -/
def AccessMode_MULTI_NODE_MULTI_WRITER : Int := 5

/-- `csi.VolumeCapability`: the oneof interface value and the access-mode pointer,
either of which may be `nil`. -/
structure VolumeCapability where
  AccessType : Option AccessType
  AccessMode : Option AccessMode
  deriving DecidableEq, Repr

/-- Generated getter `(*VolumeCapability).GetMount`: nil-safe on the receiver;
the payload of the `Mount` wrapper, `nil` for any other access type. -/
def VolumeCapability.GetMount (x : Option VolumeCapability) : Option MountVolume :=
  match x with
  | none => none
  | some vc =>
    match vc.AccessType with
    | some (AccessType.Mount m) => m
    | _ => none

/-- `csi.NodePublishVolumeRequest` (the fields the handlers read).
`VolumeContext` is a Go `map[string]string`, `none` being the nil map. -/
structure NodePublishVolumeRequest where
  VolumeId : String
  TargetPath : String
  VolumeCapability : Option VolumeCapability
  VolumeContext : Option (List (String × String))
  deriving DecidableEq, Repr

/-- Generated getter `(*NodePublishVolumeRequest).GetVolumeContext`. -/
def NodePublishVolumeRequest.GetVolumeContext (req : NodePublishVolumeRequest) :
    Option (List (String × String)) :=
  req.VolumeContext

/-- Go map indexing `m[k]` on a `map[string]string`: the zero value `""` when the
map is nil or the key is absent. -/
def mapIndex (m : Option (List (String × String))) (k : String) : String :=
  match m with
  | none => ""
  | some l => (l.lookup k).getD ""

/-- `csi.NodePublishVolumeResponse` (empty). -/
structure NodePublishVolumeResponse where
  deriving DecidableEq, Repr

/-- `csi.NodeUnpublishVolumeRequest`. -/
structure NodeUnpublishVolumeRequest where
  VolumeId : String
  TargetPath : String
  deriving DecidableEq, Repr

/-- `csi.NodeUnpublishVolumeResponse` (empty). -/
structure NodeUnpublishVolumeResponse where
  deriving DecidableEq, Repr

/-! ## Operating system and run-time library -/

/-- `syscall.Errno`. -/
abbrev Errno := Nat

/-- Linux `ENOENT`. -/
def ENOENT : Errno := 2
/-- Linux `EBUSY`. -/
def EBUSY : Errno := 16
/-- Linux `EEXIST`. -/
def EEXIST : Errno := 17
/-- Linux `EINVAL`. -/
def EINVAL : Errno := 22
/-- Linux `ENAMETOOLONG`. -/
def ENAMETOOLONG : Errno := 36
/-- Linux `ENOSYS`. -/
def ENOSYS : Errno := 38
/-- Linux `ENOTEMPTY`. -/
def ENOTEMPTY : Errno := 39

/-- A call made to the operating system, with its arguments, at the level of the
Go API used by the handlers (`os.Mkdir`, `unix.Mount`, `unix.Unmount`, `os.Remove`). -/
inductive OSCall where
  | mkdir (name : String) (perm : Nat)
  | mount (source target fstype : String) (flags : Nat) (data : String)
  | unmount (target : String) (flags : Int)
  | remove (name : String)
  deriving DecidableEq, Repr

/-- Everything outside the repository that the handlers rely on. The four calls
answer with `none` on success and `some errno` on failure, and transform the
state `σ` of the operating system; `errnoText` is `syscall.Errno.Error` and
`quote` is the rendering of a string under the `fmt` verb `%q`. -/
structure Env (σ : Type) where
  mkdir : String → Nat → σ → Option Errno × σ
  mount : String → String → String → Nat → String → σ → Option Errno × σ
  unmount : String → Int → σ → Option Errno × σ
  remove : String → σ → Option Errno × σ
  errnoText : Errno → String
  quote : String → String

/-- The state of the operating system together with the log of the calls made so far
(oldest first). -/
structure World (σ : Type) where
  state : σ
  log : List OSCall

/-- A Go `error` value as returned by the calls: a bare `syscall.Errno`
(`unix.Mount`, `unix.Unmount`) or an `*os.PathError` wrapping one
(`os.Mkdir`, `os.Remove`). -/
inductive GoError where
  | errno (e : Errno)
  | pathError (op path : String) (e : Errno)
  deriving DecidableEq, Repr

/-- The method `Error()` of a non-nil error; the `fmt` verb `%v` prints this text
for a non-nil error and `<nil>` for a nil one. -/
def GoError.Error {σ : Type} (env : Env σ) : Option GoError → String
  | none => "<nil>"
  | some (GoError.errno e) => env.errnoText e
  | some (GoError.pathError op path e) => op ++ " " ++ path ++ ": " ++ env.errnoText e

/-- `os.IsExist(err)`: `err` is not nil and its underlying errno is `EEXIST` or
`ENOTEMPTY`. -/
def os_IsExist : Option GoError → Bool
  | none => false
  | some (GoError.errno e) => e == EEXIST || e == ENOTEMPTY
  | some (GoError.pathError _ _ e) => e == EEXIST || e == ENOTEMPTY

/-- `os.Mkdir(name, perm)`. -/
def os_Mkdir {σ : Type} (env : Env σ) (name : String) (perm : Nat) (w : World σ) :
    Option GoError × World σ :=
  let r := env.mkdir name perm w.state
  (r.1.map (GoError.pathError "mkdir" name), ⟨r.2, w.log ++ [OSCall.mkdir name perm]⟩)

/-- `unix.Mount(source, target, fstype, flags, data)`. -/
def unix_Mount {σ : Type} (env : Env σ) (source target fstype : String) (flags : Nat)
    (data : String) (w : World σ) : Option GoError × World σ :=
  let r := env.mount source target fstype flags data w.state
  (r.1.map GoError.errno, ⟨r.2, w.log ++ [OSCall.mount source target fstype flags data]⟩)

/-- `unix.Unmount(target, flags)`. -/
def unix_Unmount {σ : Type} (env : Env σ) (target : String) (flags : Int) (w : World σ) :
    Option GoError × World σ :=
  let r := env.unmount target flags w.state
  (r.1.map GoError.errno, ⟨r.2, w.log ++ [OSCall.unmount target flags]⟩)

/-- `os.Remove(name)`. -/
def os_Remove {σ : Type} (env : Env σ) (name : String) (w : World σ) :
    Option GoError × World σ :=
  let r := env.remove name w.state
  (r.1.map (GoError.pathError "remove" name), ⟨r.2, w.log ++ [OSCall.remove name]⟩)

/-- `status.Error(c, msg)` as the error half of a handler result. -/
def status_Error {α : Type} (c : Code) (msg : String) : Except Status α :=
  Except.error ⟨c, msg⟩

/-! ## `support/k8s/wlapi-csi-driver/driver.go` -/

namespace WlapiCsiDriver

/-- Mount flag `msRdOnly` (Linux `MS_RDONLY`). -/
def msRdOnly : Nat := 1

/-- Mount flag `msBind` (Linux `MS_BIND`). -/
def msBind : Nat := 4096

/-- The type `Driver` (the embedded unimplemented servers carry no data). -/
structure Driver where
  NodeID : String
  WorkloadAPIDir : String
  deriving DecidableEq, Repr

/-- The function `isVolumeCapabilityPlainMount` of driver.go. -/
def isVolumeCapabilityPlainMount (volumeCapability : Option VolumeCapability) : Bool :=
  match VolumeCapability.GetMount volumeCapability with
  | none => false
  | some mount =>
    if mount.FsType ≠ "" then false
    else if mount.MountFlags.length ≠ 0 then false
    else true

/-- The function `isVolumeCapabilityAccessModeReadOnly` of driver.go. It reads
`accessMode.Mode` without a nil check: on a nil pointer the result is `none` (panic). -/
def isVolumeCapabilityAccessModeReadOnly (accessMode : Option AccessMode) : Option Bool :=
  match accessMode with
  | none => none
  | some am => some (decide (am.Mode = AccessMode_SINGLE_NODE_READER_ONLY))

/-- The method `(*Driver).NodePublishVolume` of driver.go. The `switch` is the chain of
its cases in source order; the field reads `req.VolumeCapability.AccessType` and
`req.VolumeCapability.AccessMode` dereference `req.VolumeCapability`. -/
def Driver.NodePublishVolume {σ : Type} (d : Driver) (env : Env σ)
    (req : NodePublishVolumeRequest) (w : World σ) :
    Option (Except Status NodePublishVolumeResponse × World σ) :=
  let ephemeralMode := mapIndex req.GetVolumeContext "csi.storage.k8s.io/ephemeral"
  -- Validate request
  if req.VolumeId = "" then
    some (status_Error Code.InvalidArgument "request missing required volume id", w)
  else if req.TargetPath = "" then
    some (status_Error Code.InvalidArgument "request missing required target path", w)
  else if req.VolumeCapability = none then
    some (status_Error Code.InvalidArgument "request missing required volume capability", w)
  else
    match req.VolumeCapability with
    | none => none
    | some vc =>
      if vc.AccessType = none then
        some (status_Error Code.InvalidArgument
          "request missing required volume capability access type", w)
      else if ¬ isVolumeCapabilityPlainMount req.VolumeCapability = true then
        some (status_Error Code.InvalidArgument
          "request volume capability access type must be mount", w)
      else if vc.AccessMode = none then
        some (status_Error Code.InvalidArgument
          "request missing required volume capability access mode", w)
      else
        match isVolumeCapabilityAccessModeReadOnly vc.AccessMode with
        | none => none
        | some true =>
          some (status_Error Code.InvalidArgument
            "request missing required volume capability access mode", w)
        | some false =>
          if ephemeralMode ≠ "true" then
            some (status_Error Code.InvalidArgument "only ephemeral volumes are supported", w)
          else
            -- Create the target path (required by CSI interface)
            match os_Mkdir env req.TargetPath 0o777 w with
            | (err, w1) =>
              if err ≠ none ∧ ¬ os_IsExist err = true then
                some (status_Error Code.Internal
                  ("unable to create target path " ++ env.quote req.TargetPath ++ ": "
                    ++ GoError.Error env err), w1)
              else
                -- Bind mount the agent socket directory to the target path
                match unix_Mount env d.WorkloadAPIDir req.TargetPath "none"
                    (msBind ||| msRdOnly) "" w1 with
                | (err2, w2) =>
                  if err2 ≠ none then
                    some (status_Error Code.Internal
                      ("unable to mount " ++ env.quote req.TargetPath ++ ": "
                        ++ GoError.Error env err2), w2)
                  else
                    some (Except.ok {}, w2)

/-- The method `(*Driver).NodeUnpublishVolume` of driver.go. -/
def Driver.NodeUnpublishVolume {σ : Type} (_d : Driver) (env : Env σ)
    (req : NodeUnpublishVolumeRequest) (w : World σ) :
    Option (Except Status NodeUnpublishVolumeResponse × World σ) :=
  -- Validate request
  if req.VolumeId = "" then
    some (status_Error Code.InvalidArgument "request missing required volume id", w)
  else if req.TargetPath = "" then
    some (status_Error Code.InvalidArgument "request missing required target path", w)
  else
    match unix_Unmount env req.TargetPath 0 w with
    | (err, w1) =>
      if err ≠ none then
        some (status_Error Code.Internal
          ("unable to unmount " ++ env.quote req.TargetPath ++ ": "
            ++ GoError.Error env err), w1)
      else
        match os_Remove env req.TargetPath w1 with
        | (err2, w2) =>
          if err2 ≠ none then
            some (status_Error Code.Internal
              ("unable to remove target path " ++ env.quote req.TargetPath ++ ": "
                ++ GoError.Error env err2), w2)
          else
            some (Except.ok {}, w2)

end WlapiCsiDriver

/-! ## `pkg/agent/csi/csi.go` -/

namespace AgentCsi

/-- Mount flag `msRdOnly` (Linux `MS_RDONLY`). -/
def msRdOnly : Nat := 1

/-- Mount flag `msBind` (Linux `MS_BIND`). -/
def msBind : Nat := 4096

/-- The type `Config` of csi.go. -/
structure Config where
  SocketDir : String
  deriving DecidableEq, Repr

/-- The type `Plugin` of csi.go. -/
structure Plugin where
  config : Config
  deriving DecidableEq, Repr

/-- The function `New` of csi.go. -/
def New (config : Config) : Plugin :=
  { config := config }

/-- The function `isVolumeCapabilityPlainMount` of csi.go. -/
def isVolumeCapabilityPlainMount (volumeCapability : Option VolumeCapability) : Bool :=
  match VolumeCapability.GetMount volumeCapability with
  | none => false
  | some mount =>
    if mount.FsType ≠ "" then false
    else if mount.MountFlags.length ≠ 0 then false
    else true

/-- The function `isVolumeCapabilityAccessModeReadOnly` of csi.go. It reads
`accessMode.Mode` without a nil check: on a nil pointer the result is `none` (panic). -/
def isVolumeCapabilityAccessModeReadOnly (accessMode : Option AccessMode) : Option Bool :=
  match accessMode with
  | none => none
  | some am => some (decide (am.Mode = AccessMode_SINGLE_NODE_READER_ONLY))

/-- The method `(*Plugin).nodePublishVolume` of csi.go. -/
def Plugin.nodePublishVolume {σ : Type} (p : Plugin) (env : Env σ)
    (req : NodePublishVolumeRequest) (w : World σ) :
    Option (Except Status NodePublishVolumeResponse × World σ) :=
  let ephemeralMode := mapIndex req.GetVolumeContext "csi.storage.k8s.io/ephemeral"
  -- Validate request
  if req.VolumeId = "" then
    some (status_Error Code.InvalidArgument "request missing required volume id", w)
  else if req.TargetPath = "" then
    some (status_Error Code.InvalidArgument "request missing required target path", w)
  else if req.VolumeCapability = none then
    some (status_Error Code.InvalidArgument "request missing required volume capability", w)
  else
    match req.VolumeCapability with
    | none => none
    | some vc =>
      if vc.AccessType = none then
        some (status_Error Code.InvalidArgument
          "request missing required volume capability access type", w)
      else if ¬ isVolumeCapabilityPlainMount req.VolumeCapability = true then
        some (status_Error Code.InvalidArgument
          "request volume capability access type must be mount", w)
      else if vc.AccessMode = none then
        some (status_Error Code.InvalidArgument
          "request missing required volume capability access mode", w)
      else
        match isVolumeCapabilityAccessModeReadOnly vc.AccessMode with
        | none => none
        | some true =>
          some (status_Error Code.InvalidArgument
            "request missing required volume capability access mode", w)
        | some false =>
          if ephemeralMode ≠ "true" then
            some (status_Error Code.InvalidArgument "only ephemeral volumes are supported", w)
          else
            -- Create the target path (required by CSI interface)
            match os_Mkdir env req.TargetPath 0o777 w with
            | (err, w1) =>
              if err ≠ none ∧ ¬ os_IsExist err = true then
                some (status_Error Code.Internal
                  ("unable to create target path " ++ env.quote req.TargetPath ++ ": "
                    ++ GoError.Error env err), w1)
              else
                -- Bind mount the agent socket directory to the target path
                match unix_Mount env p.config.SocketDir req.TargetPath "none"
                    (msBind ||| msRdOnly) "" w1 with
                | (err2, w2) =>
                  if err2 ≠ none then
                    some (status_Error Code.Internal
                      ("unable to mount " ++ env.quote p.config.SocketDir ++ " to "
                        ++ env.quote req.TargetPath ++ ": " ++ GoError.Error env err2), w2)
                  else
                    some (Except.ok {}, w2)

/-- The method `(*Plugin).nodeUnpublishVolume` of csi.go. -/
def Plugin.nodeUnpublishVolume {σ : Type} (_p : Plugin) (env : Env σ)
    (req : NodeUnpublishVolumeRequest) (w : World σ) :
    Option (Except Status NodeUnpublishVolumeResponse × World σ) :=
  -- Validate request
  if req.VolumeId = "" then
    some (status_Error Code.InvalidArgument "request missing required volume id", w)
  else if req.TargetPath = "" then
    some (status_Error Code.InvalidArgument "request missing required target path", w)
  else
    match unix_Unmount env req.TargetPath 0 w with
    | (err, w1) =>
      if err ≠ none then
        some (status_Error Code.Internal
          ("unable to unmount " ++ env.quote req.TargetPath ++ ": "
            ++ GoError.Error env err), w1)
      else
        match os_Remove env req.TargetPath w1 with
        | (err2, w2) =>
          if err2 ≠ none then
            some (status_Error Code.Internal
              ("unable to remove target path " ++ env.quote req.TargetPath ++ ": "
                ++ GoError.Error env err2), w2)
          else
            some (Except.ok {}, w2)

end AgentCsi

/-! ## An explicit model of the operating system

The state is the set of existing directories and the mount table. The world of
the model holds directories only, on one writable filesystem, mounts do not
propagate to other mounts, and the process may do everything. The model covers
absolute paths that do not pass through a mount point, plain bind mounts (flags
`MS_BIND`, with or without `MS_RDONLY`), plain unmounts (flags 0) and the
removal of directories that no mount shows. Within this scope the four calls
have their Linux results. A call outside this scope is answered by a further
environment `beyond`, about which nothing is assumed. -/

/-- A directory: its names from the root down (the root is the empty list). -/
abbrev Dir := List String

/-- One entry of the mount table: the directory mounted on, the directory shown there,
and whether the mount is read-only. -/
structure MountRecord where
  target : Dir
  source : Dir
  readOnly : Bool
  deriving DecidableEq, Repr

/-- The explicit state of the operating system: the existing directories (the root
always exists) and the mount table (most recent mount first). -/
structure FS where
  dirs : List Dir
  mounts : List MountRecord
  deriving DecidableEq, Repr

/-- Linux `MS_RDONLY`. -/
def MS_RDONLY : Nat := 1

/-- Linux `MS_BIND`. -/
def MS_BIND : Nat := 4096

/-- Whether the string holds a NUL byte; the Go wrappers of the system calls answer
`EINVAL` to such a string without calling the kernel. -/
def hasNUL (p : String) : Bool :=
  p.data.any (fun c => decide (c.toNat = 0))

/-- The length of the UTF-8 encoding of a character. -/
def utf8Len (c : Char) : Nat :=
  if c.toNat < 0x80 then 1
  else if c.toNat < 0x800 then 2
  else if c.toNat < 0x10000 then 3
  else 4

/-- The length of a string in bytes. -/
def utf8Bytes (p : String) : Nat :=
  (p.data.map utf8Len).sum

/-- The pieces of a list of characters between its slashes. -/
def splitSlash : List Char → List (List Char)
  | [] => [[]]
  | c :: cs =>
    if c.toNat = 47 then [] :: splitSlash cs
    else
      match splitSlash cs with
      | [] => [[c]]
      | piece :: pieces => (c :: piece) :: pieces

/-- The names of a path: its pieces between slashes, the empty ones dropped, so that
repeated and trailing slashes do not count. -/
def pathNames (p : String) : List String :=
  ((splitSlash p.data).filter (fun piece => !piece.isEmpty)).map String.mk

/-- Whether some entry of the mount table has the directory `q` as its target. -/
def FS.mountedOn (s : FS) (q : Dir) : Bool :=
  s.mounts.any (fun m => decide (m.target = q))

/-- Whether some existing directory lies directly inside `q`. -/
def FS.hasChild (s : FS) (q : Dir) : Bool :=
  s.dirs.any (fun c => decide (c ≠ []) && decide (c.dropLast = q))

/-- Whether some entry of the mount table shows the directory `q`. -/
def FS.shownBy (s : FS) (q : Dir) : Bool :=
  s.mounts.any (fun m => decide (m.source = q))

/-- One step of path resolution, from the existing directory `cur` along `name`:
`.` stays, `..` goes up (the root is its own parent), a name of more than 255 bytes is
`ENAMETOOLONG`, a missing directory is `ENOENT`. -/
def FS.step (s : FS) (cur : Dir) (name : String) : Except Errno Dir :=
  if name = "." then Except.ok cur
  else if name = ".." then Except.ok cur.dropLast
  else if 255 < utf8Bytes name then Except.error ENAMETOOLONG
  else if cur ++ [name] ∈ s.dirs then Except.ok (cur ++ [name])
  else Except.error ENOENT

/-- Where path resolution ends. -/
inductive Located where
  | root
  | entry (parent : Dir) (name : String)
  | fails (e : Errno)
  | beyond
  deriving DecidableEq, Repr

/-- Path resolution from the directory `cur` along `names`, up to the last name: the
result is the directory that holds the last name, together with that name. Every
directory passed through must carry no mount, or the path is beyond the model. -/
def FS.locateFrom (s : FS) : Dir → List String → Located
  | _, [] => Located.root
  | cur, [name] => if s.mountedOn cur = true then Located.beyond else Located.entry cur name
  | cur, name :: next :: rest =>
    if s.mountedOn cur = true then Located.beyond
    else
      match s.step cur name with
      | Except.ok q => s.locateFrom q (next :: rest)
      | Except.error e => Located.fails e

/-- Path resolution of the string `p`, up to its last name. A string with a NUL byte is
`EINVAL`, the empty string is `ENOENT`, a string of 4096 bytes or more is
`ENAMETOOLONG`; a relative path is beyond the model, which does not hold the working
directory of the process. -/
def FS.locate (s : FS) (p : String) : Located :=
  if hasNUL p = true then Located.fails EINVAL
  else if p = "" then Located.fails ENOENT
  else if 4096 ≤ utf8Bytes p then Located.fails ENAMETOOLONG
  else if p.data.head? ≠ some (Char.ofNat 47) then Located.beyond
  else s.locateFrom [] (pathNames p)

/-- The outcome of resolving a path to a directory. -/
inductive Walk where
  | found (q : Dir)
  | fails (e : Errno)
  | beyond
  deriving DecidableEq, Repr

/-- The existing directory that the path `p` denotes. -/
def FS.dirOf (s : FS) (p : String) : Walk :=
  match s.locate p with
  | Located.root => Walk.found []
  | Located.entry parent name =>
    match s.step parent name with
    | Except.ok q => Walk.found q
    | Except.error e => Walk.fails e
  | Located.fails e => Walk.fails e
  | Located.beyond => Walk.beyond

/-- Whether the path `p` may denote a mount point: false when `p` does not resolve to
a directory or resolves to a directory that carries no mount, true when it resolves to
a directory that carries a mount, to the root, or is beyond the model. -/
def FS.isMounted (s : FS) (p : String) : Bool :=
  match s.dirOf p with
  | Walk.found q => decide (q = []) || s.mountedOn q
  | Walk.fails _ => false
  | Walk.beyond => true

/-- Model of `os.Mkdir`: `EEXIST` on the root, on a last name `.` or `..` and on an
existing directory, `ENAMETOOLONG` on a last name of more than 255 bytes; otherwise the
directory is created. The mode does not affect the outcome. -/
def FS.mkdir (beyond : Env FS) (name : String) (perm : Nat) (s : FS) : Option Errno × FS :=
  match s.locate name with
  | Located.fails e => (some e, s)
  | Located.beyond => beyond.mkdir name perm s
  | Located.root => (some EEXIST, s)
  | Located.entry parent last =>
    if last = "." ∨ last = ".." then (some EEXIST, s)
    else if 255 < utf8Bytes last then (some ENAMETOOLONG, s)
    else if parent ++ [last] ∈ s.dirs then (some EEXIST, s)
    else (none, { s with dirs := (parent ++ [last]) :: s.dirs })

/-- Model of `unix.Mount` for a plain bind mount. A NUL byte in an argument, or a source
or filesystem type of 4096 bytes or more, is `EINVAL`; then the target is resolved, an
empty source is `EINVAL`, and the source is resolved. The new mount is recorded on top
of the mount table. Linux ignores `MS_RDONLY` when it makes a bind mount (a read-only
bind mount takes a second call, with `MS_REMOUNT`): the mount is recorded read-write.
The filesystem type and the data are ignored. Other flags, and the root as target, are
beyond the model. -/
def FS.mount (beyond : Env FS) (source target fstype : String) (flags : Nat) (data : String)
    (s : FS) : Option Errno × FS :=
  if hasNUL source = true ∨ hasNUL target = true ∨ hasNUL fstype = true ∨ hasNUL data = true then
    (some EINVAL, s)
  else if 4096 ≤ utf8Bytes fstype ∨ 4096 ≤ utf8Bytes source then (some EINVAL, s)
  else if flags ≠ MS_BIND ∧ flags ≠ MS_BIND ||| MS_RDONLY then
    beyond.mount source target fstype flags data s
  else
    match s.dirOf target with
    | Walk.fails e => (some e, s)
    | Walk.beyond => beyond.mount source target fstype flags data s
    | Walk.found q =>
      if q = [] then beyond.mount source target fstype flags data s
      else if source = "" then (some EINVAL, s)
      else
        match s.dirOf source with
        | Walk.fails e => (some e, s)
        | Walk.beyond => beyond.mount source target fstype flags data s
        | Walk.found qs =>
          (none, { s with mounts := ⟨q, qs, false⟩ :: s.mounts })

/-- Model of `unix.Unmount` with flags 0: the target is resolved; `EINVAL` when it is
not a mount point; otherwise the most recent mount on it is dropped. Other flags, and
the root as target, are beyond the model. -/
def FS.unmount (beyond : Env FS) (target : String) (flags : Int) (s : FS) :
    Option Errno × FS :=
  if hasNUL target = true then (some EINVAL, s)
  else if flags ≠ 0 then beyond.unmount target flags s
  else
    match s.dirOf target with
    | Walk.fails e => (some e, s)
    | Walk.beyond => beyond.unmount target flags s
    | Walk.found q =>
      if q = [] then beyond.unmount target flags s
      else if s.mountedOn q = true then
        (none, { s with mounts := s.mounts.eraseP (fun m => decide (m.target = q)) })
      else (some EINVAL, s)

/-- Model of `os.Remove` on a directory: `EBUSY` on the root and on a mount point,
`EINVAL` on a last name `.`, `ENOTEMPTY` on a last name `..` and on a directory that
holds another; otherwise the directory is removed. The removal of a directory that a
mount shows is beyond the model. -/
def FS.remove (beyond : Env FS) (name : String) (s : FS) : Option Errno × FS :=
  match s.locate name with
  | Located.fails e => (some e, s)
  | Located.beyond => beyond.remove name s
  | Located.root => (some EBUSY, s)
  | Located.entry parent last =>
    if last = "." then (some EINVAL, s)
    else if last = ".." then (some ENOTEMPTY, s)
    else
      match s.step parent last with
      | Except.error e => (some e, s)
      | Except.ok q =>
        if s.mountedOn q = true then (some EBUSY, s)
        else if s.shownBy q = true then beyond.remove name s
        else if s.hasChild q = true then (some ENOTEMPTY, s)
        else (none, { s with dirs := s.dirs.erase q })

/-- The Linux error texts of the errnos the model produces; `errno N` for the others,
as `syscall.Errno.Error` prints a number it has no text for. -/
def linuxErrnoText (e : Errno) : String :=
  if e = ENOENT then "no such file or directory"
  else if e = EBUSY then "device or resource busy"
  else if e = EEXIST then "file exists"
  else if e = EINVAL then "invalid argument"
  else if e = ENAMETOOLONG then "file name too long"
  else if e = ENOSYS then "function not implemented"
  else if e = ENOTEMPTY then "directory not empty"
  else "errno " ++ toString e

/-- Lower-case hexadecimal digit. -/
def lowerhex (n : Nat) : Char :=
  Char.ofNat (if n < 10 then 48 + n else 87 + n)

/-- `strconv.IsPrint`, exact up to U+00FF; code points above are taken as printable. -/
def strconvIsPrint (r : Char) : Bool :=
  let n := r.toNat
  if n ≤ 0xFF then
    if 0x20 ≤ n ∧ n ≤ 0x7E then true
    else if 0xA1 ≤ n ∧ n ≤ 0xFF then decide (n ≠ 0xAD)
    else false
  else true

/-- One rune of `strconv.Quote`: the double quote and the backslash are backslashed,
printable runes stand for themselves, the others are escaped. -/
def appendEscapedRune (r : Char) : List Char :=
  let n := r.toNat
  let bs := Char.ofNat 92
  if n = 34 ∨ n = 92 then [bs, r]
  else if strconvIsPrint r = true then [r]
  else if n = 7 then [bs, Char.ofNat 97]
  else if n = 8 then [bs, Char.ofNat 98]
  else if n = 12 then [bs, Char.ofNat 102]
  else if n = 10 then [bs, Char.ofNat 110]
  else if n = 13 then [bs, Char.ofNat 114]
  else if n = 9 then [bs, Char.ofNat 116]
  else if n = 11 then [bs, Char.ofNat 118]
  else if n < 0x20 ∨ n = 0x7F then [bs, Char.ofNat 120, lowerhex (n / 16), lowerhex (n % 16)]
  else [bs, Char.ofNat 117, lowerhex (n / 4096 % 16), lowerhex (n / 256 % 16),
    lowerhex (n / 16 % 16), lowerhex (n % 16)]

/-- `strconv.Quote`, which the `fmt` verb `%q` applies to a string. -/
def strconvQuote (s : String) : String :=
  String.mk ([Char.ofNat 34] ++ (s.data.map appendEscapedRune).flatten ++ [Char.ofNat 34])

/-- The explicit model as an environment of the handlers, the calls outside its scope
being answered by `beyond`. -/
def linuxModel (beyond : Env FS) : Env FS where
  mkdir := FS.mkdir beyond
  mount := FS.mount beyond
  unmount := FS.unmount beyond
  remove := FS.remove beyond
  errnoText := linuxErrnoText
  quote := strconvQuote

/-- An environment that carries out no call: each is answered `ENOSYS`. -/
def refuse : Env FS where
  mkdir := fun _ _ s => (some ENOSYS, s)
  mount := fun _ _ _ _ _ s => (some ENOSYS, s)
  unmount := fun _ _ s => (some ENOSYS, s)
  remove := fun _ s => (some ENOSYS, s)
  errnoText := linuxErrnoText
  quote := strconvQuote

/-- The explicit model, closed for evaluation: a call outside its scope is refused. -/
def linux : Env FS :=
  linuxModel refuse

/-! ## The publish-side contract as the specification words it

The eight checks of the request validator, in the order of the specification,
each with the message of its rejection. -/

/-- A named check of the validator: the predicate on the request and the message
of the `InvalidArgument` rejection returned when it fails. -/
structure Check where
  holds : NodePublishVolumeRequest → Bool
  message : String

/-- Check 1: volumeID non-empty. -/
def checkVolumeID (req : NodePublishVolumeRequest) : Bool :=
  decide (req.VolumeId ≠ "")

/-- Check 2: targetPath non-empty. -/
def checkTargetPath (req : NodePublishVolumeRequest) : Bool :=
  decide (req.TargetPath ≠ "")

/-- Check 3: volumeCapability present. -/
def checkCapabilityPresent (req : NodePublishVolumeRequest) : Bool :=
  req.VolumeCapability.isSome

/-- Check 4: volumeCapability.accessType present. -/
def checkAccessTypePresent (req : NodePublishVolumeRequest) : Bool :=
  match req.VolumeCapability with
  | some vc => vc.AccessType.isSome
  | none => false

/-- Check 5: accessType is the mount variant, fsType is empty and mountFlags is empty. -/
def checkPlainMount (req : NodePublishVolumeRequest) : Bool :=
  match req.VolumeCapability with
  | some vc =>
    match vc.AccessType with
    | some (AccessType.Mount (some m)) => decide (m.FsType = "") && decide (m.MountFlags = [])
    | _ => false
  | none => false

/-- Check 6: accessMode present. -/
def checkAccessModePresent (req : NodePublishVolumeRequest) : Bool :=
  match req.VolumeCapability with
  | some vc => vc.AccessMode.isSome
  | none => false

/-- Check 7: accessMode is not SINGLE_NODE_READER_ONLY. -/
def checkNotSingleNodeReaderOnly (req : NodePublishVolumeRequest) : Bool :=
  match req.VolumeCapability with
  | some vc =>
    match vc.AccessMode with
    | some am => decide (am.Mode ≠ AccessMode_SINGLE_NODE_READER_ONLY)
    | none => false
  | none => false

/-- Check 8: the volume context maps the ephemeral marker key to the string `true`. -/
def checkEphemeral (req : NodePublishVolumeRequest) : Bool :=
  decide (mapIndex req.VolumeContext "csi.storage.k8s.io/ephemeral" = "true")

/-- The eight checks in the order of the publish-side contract. -/
def publishChecks : List Check :=
  [ ⟨checkVolumeID, "request missing required volume id"⟩,
    ⟨checkTargetPath, "request missing required target path"⟩,
    ⟨checkCapabilityPresent, "request missing required volume capability"⟩,
    ⟨checkAccessTypePresent, "request missing required volume capability access type"⟩,
    ⟨checkPlainMount, "request volume capability access type must be mount"⟩,
    ⟨checkAccessModePresent, "request missing required volume capability access mode"⟩,
    ⟨checkNotSingleNodeReaderOnly, "request missing required volume capability access mode"⟩,
    ⟨checkEphemeral, "only ephemeral volumes are supported"⟩ ]

/-- A request passes validation when each of the eight checks holds. -/
def passesValidation (req : NodePublishVolumeRequest) : Bool :=
  publishChecks.all (fun c => c.holds req)

/-- Check `k` is the first of the eight that fails on `req`, and `msg` is its message. -/
def FirstFailing (req : NodePublishVolumeRequest) (msg : String) : Prop :=
  (checkVolumeID req = false ∧ msg = "request missing required volume id") ∨
  (checkVolumeID req = true ∧ checkTargetPath req = false ∧
    msg = "request missing required target path") ∨
  (checkVolumeID req = true ∧ checkTargetPath req = true ∧
    checkCapabilityPresent req = false ∧
    msg = "request missing required volume capability") ∨
  (checkVolumeID req = true ∧ checkTargetPath req = true ∧
    checkCapabilityPresent req = true ∧ checkAccessTypePresent req = false ∧
    msg = "request missing required volume capability access type") ∨
  (checkVolumeID req = true ∧ checkTargetPath req = true ∧
    checkCapabilityPresent req = true ∧ checkAccessTypePresent req = true ∧
    checkPlainMount req = false ∧
    msg = "request volume capability access type must be mount") ∨
  (checkVolumeID req = true ∧ checkTargetPath req = true ∧
    checkCapabilityPresent req = true ∧ checkAccessTypePresent req = true ∧
    checkPlainMount req = true ∧ checkAccessModePresent req = false ∧
    msg = "request missing required volume capability access mode") ∨
  (checkVolumeID req = true ∧ checkTargetPath req = true ∧
    checkCapabilityPresent req = true ∧ checkAccessTypePresent req = true ∧
    checkPlainMount req = true ∧ checkAccessModePresent req = true ∧
    checkNotSingleNodeReaderOnly req = false ∧
    msg = "request missing required volume capability access mode") ∨
  (checkVolumeID req = true ∧ checkTargetPath req = true ∧
    checkCapabilityPresent req = true ∧ checkAccessTypePresent req = true ∧
    checkPlainMount req = true ∧ checkAccessModePresent req = true ∧
    checkNotSingleNodeReaderOnly req = true ∧ checkEphemeral req = false ∧
    msg = "only ephemeral volumes are supported")

/-- The class of a handler result: `OK` for a response, the status code for an error. -/
def outcomeClass {α : Type} : Except Status α → Code
  | Except.ok _ => Code.OK
  | Except.error st => st.code

/-- Whether a logged call is a mount call. -/
def OSCall.isMount : OSCall → Bool
  | OSCall.mount _ _ _ _ _ => true
  | _ => false

/-- The calls a handler run issued: what its final log holds beyond the log `w.log`
it started from (nothing when the run panicked). -/
def issuedCalls {σ α : Type} (w : World σ) (r : Option (α × World σ)) : List OSCall :=
  match r with
  | some out => out.2.log.drop w.log.length
  | none => []

/-- The status of a handler result, if it is an error. -/
def resultStatus {α : Type} : Except Status α → Option Status
  | Except.ok _ => none
  | Except.error st => some st

/-- Whether the text `pat` occurs in the text `s`. -/
def containsText (s pat : String) : Bool :=
  s.data.tails.any (fun t => pat.data.isPrefixOf t)

/-- A read-only access mode: SINGLE_NODE_READER_ONLY or MULTI_NODE_READER_ONLY. -/
def isReadOnlyMode (m : Int) : Bool :=
  decide (m = AccessMode_SINGLE_NODE_READER_ONLY) || decide (m = AccessMode_MULTI_NODE_READER_ONLY)

/-- The acceptance invariant of the data model, with "not a read-only mode" read as
neither of the two reader-only modes: volumeID and targetPath are non-empty, accessType
is the mount variant with empty fsType and empty mountFlags, accessMode is present and
is not a read-only mode, and the volume context maps the ephemeral marker key to the
string `true`. -/
def acceptanceInvariant (req : NodePublishVolumeRequest) : Bool :=
  decide (req.VolumeId ≠ "") && decide (req.TargetPath ≠ "") &&
  (match req.VolumeCapability with
    | some vc =>
      (match vc.AccessType with
        | some (AccessType.Mount (some m)) => decide (m.FsType = "") && decide (m.MountFlags = [])
        | _ => false) &&
      (match vc.AccessMode with
        | some am => !isReadOnlyMode am.Mode
        | none => false)
    | none => false) &&
  (match req.VolumeContext with
    | some l => decide (l.lookup "csi.storage.k8s.io/ephemeral" = some "true")
    | none => false)

/-! ## Concrete data -/

/-- A driver configured with the usual socket directory of the agent. -/
def exampleDriver : WlapiCsiDriver.Driver :=
  { NodeID := "node-1", WorkloadAPIDir := "/run/spire/sockets" }

/-- A plugin configured with the same socket directory. -/
def examplePlugin : AgentCsi.Plugin :=
  AgentCsi.New { SocketDir := "/run/spire/sockets" }

/-- The concrete scenario of the specification: a plain mount, SINGLE_NODE_WRITER,
ephemeral. -/
def exampleRequest : NodePublishVolumeRequest :=
  { VolumeId := "v1"
    TargetPath := "/pods/p1/mount"
    VolumeCapability := some
      { AccessType := some (AccessType.Mount (some { FsType := "", MountFlags := [] }))
        AccessMode := some { Mode := AccessMode_SINGLE_NODE_WRITER } }
    VolumeContext := some [("csi.storage.k8s.io/ephemeral", "true")] }

/-- The same request with an empty volume context. -/
def exampleRequestNoContext : NodePublishVolumeRequest :=
  { exampleRequest with VolumeContext := some [] }

/-- The same request asking for MULTI_NODE_READER_ONLY. -/
def exampleRequestMultiReader : NodePublishVolumeRequest :=
  { exampleRequest with
    VolumeCapability := some
      { AccessType := some (AccessType.Mount (some { FsType := "", MountFlags := [] }))
        AccessMode := some { Mode := AccessMode_MULTI_NODE_READER_ONLY } } }

/-- The unpublish request for the target path of `exampleRequest`. -/
def exampleUnpublish : NodeUnpublishVolumeRequest :=
  { VolumeId := "v1", TargetPath := "/pods/p1/mount" }

/-- A directory tree holding the socket directory and the pod directory; nothing is
mounted. -/
def exampleFS : FS :=
  { dirs := [[], ["run"], ["run", "spire"], ["run", "spire", "sockets"], ["pods"],
      ["pods", "p1"]]
    mounts := [] }

/-- A directory tree holding the pod directory but not the socket directory. -/
def exampleFSNoSource : FS :=
  { dirs := [[], ["pods"], ["pods", "p1"]]
    mounts := [] }

/-! ## Theorems -/

open WlapiCsiDriver AgentCsi

/-- What passing the eight checks says about the fields of the request. -/
theorem passesValidation_iff (req : NodePublishVolumeRequest) :
    passesValidation req = true ↔
      req.VolumeId ≠ "" ∧ req.TargetPath ≠ "" ∧
      (∃ am, req.VolumeCapability = some ⟨some (AccessType.Mount (some ⟨"", []⟩)), some am⟩ ∧
        am.Mode ≠ AccessMode_SINGLE_NODE_READER_ONLY) ∧
      mapIndex req.VolumeContext "csi.storage.k8s.io/ephemeral" = "true" := by
  obtain ⟨vid, tp, vc, ctx⟩ := req
  simp only [passesValidation, publishChecks, List.all_cons, List.all_nil, checkVolumeID,
    checkTargetPath, checkCapabilityPresent, checkAccessTypePresent, checkPlainMount,
    checkAccessModePresent, checkNotSingleNodeReaderOnly, checkEphemeral, Bool.and_true,
    Bool.and_eq_true, decide_eq_true_eq]
  constructor
  · rintro ⟨h1, h2, h3, h4, h5, h6, h7, h8⟩
    refine ⟨h1, h2, ?_, h8⟩
    match vc, h3, h4, h5, h6, h7 with
    | some ⟨some (AccessType.Mount (some ⟨fs, fl⟩)), some am⟩, _, _, h5, _, h7 =>
      simp at h5 h7
      obtain ⟨rfl, rfl⟩ := h5
      exact ⟨am, rfl, h7⟩
  · rintro ⟨h1, h2, ⟨am, rfl, h7⟩, h8⟩
    simp [h1, h2, h7, h8]

/-- The mount flags of both packages: bind and read-only, 4097. -/
theorem mountFlags_eq :
    WlapiCsiDriver.msBind ||| WlapiCsiDriver.msRdOnly = 4097 ∧
    AgentCsi.msBind ||| AgentCsi.msRdOnly = 4097 := by
  constructor <;> decide

/-- On a request that passes the eight checks `Driver.NodePublishVolume` is its
operating-system part: `os.Mkdir` followed by `unix.Mount`. -/
theorem Driver.NodePublishVolume_of_passes {σ : Type} (d : Driver) (env : Env σ)
    (req : NodePublishVolumeRequest) (w : World σ) (h : passesValidation req = true) :
    d.NodePublishVolume env req w =
      if (os_Mkdir env req.TargetPath 0o777 w).1 ≠ none ∧
          ¬ os_IsExist (os_Mkdir env req.TargetPath 0o777 w).1 = true then
        some (status_Error Code.Internal
          ("unable to create target path " ++ env.quote req.TargetPath ++ ": "
            ++ GoError.Error env (os_Mkdir env req.TargetPath 0o777 w).1),
          (os_Mkdir env req.TargetPath 0o777 w).2)
      else if (unix_Mount env d.WorkloadAPIDir req.TargetPath "none" 4097 ""
          (os_Mkdir env req.TargetPath 0o777 w).2).1 ≠ none then
        some (status_Error Code.Internal
          ("unable to mount " ++ env.quote req.TargetPath ++ ": "
            ++ GoError.Error env (unix_Mount env d.WorkloadAPIDir req.TargetPath "none" 4097 ""
              (os_Mkdir env req.TargetPath 0o777 w).2).1),
          (unix_Mount env d.WorkloadAPIDir req.TargetPath "none" 4097 ""
            (os_Mkdir env req.TargetPath 0o777 w).2).2)
      else
        some (Except.ok {}, (unix_Mount env d.WorkloadAPIDir req.TargetPath "none" 4097 ""
          (os_Mkdir env req.TargetPath 0o777 w).2).2) := by
  obtain ⟨h1, h2, ⟨am, hvc, h7⟩, h8⟩ := (passesValidation_iff req).1 h
  have hf : WlapiCsiDriver.msBind ||| WlapiCsiDriver.msRdOnly = 4097 := mountFlags_eq.1
  simp only [Driver.NodePublishVolume, hf, NodePublishVolumeRequest.GetVolumeContext]
  simp [h1, h2, hvc, h7, h8, WlapiCsiDriver.isVolumeCapabilityPlainMount,
    WlapiCsiDriver.isVolumeCapabilityAccessModeReadOnly, VolumeCapability.GetMount]

/-- On a request that passes the eight checks `Plugin.nodePublishVolume` is its
operating-system part: `os.Mkdir` followed by `unix.Mount`. -/
theorem Plugin.nodePublishVolume_of_passes {σ : Type} (p : Plugin) (env : Env σ)
    (req : NodePublishVolumeRequest) (w : World σ) (h : passesValidation req = true) :
    p.nodePublishVolume env req w =
      if (os_Mkdir env req.TargetPath 0o777 w).1 ≠ none ∧
          ¬ os_IsExist (os_Mkdir env req.TargetPath 0o777 w).1 = true then
        some (status_Error Code.Internal
          ("unable to create target path " ++ env.quote req.TargetPath ++ ": "
            ++ GoError.Error env (os_Mkdir env req.TargetPath 0o777 w).1),
          (os_Mkdir env req.TargetPath 0o777 w).2)
      else if (unix_Mount env p.config.SocketDir req.TargetPath "none" 4097 ""
          (os_Mkdir env req.TargetPath 0o777 w).2).1 ≠ none then
        some (status_Error Code.Internal
          ("unable to mount " ++ env.quote p.config.SocketDir ++ " to "
            ++ env.quote req.TargetPath ++ ": "
            ++ GoError.Error env (unix_Mount env p.config.SocketDir req.TargetPath "none" 4097 ""
              (os_Mkdir env req.TargetPath 0o777 w).2).1),
          (unix_Mount env p.config.SocketDir req.TargetPath "none" 4097 ""
            (os_Mkdir env req.TargetPath 0o777 w).2).2)
      else
        some (Except.ok {}, (unix_Mount env p.config.SocketDir req.TargetPath "none" 4097 ""
          (os_Mkdir env req.TargetPath 0o777 w).2).2) := by
  obtain ⟨h1, h2, ⟨am, hvc, h7⟩, h8⟩ := (passesValidation_iff req).1 h
  have hf : AgentCsi.msBind ||| AgentCsi.msRdOnly = 4097 := mountFlags_eq.2
  simp only [Plugin.nodePublishVolume, hf, NodePublishVolumeRequest.GetVolumeContext]
  simp [h1, h2, hvc, h7, h8, AgentCsi.isVolumeCapabilityPlainMount,
    AgentCsi.isVolumeCapabilityAccessModeReadOnly, VolumeCapability.GetMount]

/-- The publish handlers, check by check: when the checks before check `k` hold and
check `k` fails, both return the rejection of check `k` and leave the world untouched. -/
theorem publish_chain {σ : Type} (d : Driver) (p : Plugin) (env : Env σ)
    (req : NodePublishVolumeRequest) (w : World σ) (msg : String)
    (h : FirstFailing req msg) :
    d.NodePublishVolume env req w = some (status_Error Code.InvalidArgument msg, w) ∧
    p.nodePublishVolume env req w = some (status_Error Code.InvalidArgument msg, w) := by
  obtain ⟨vid, tp, vc, ctx⟩ := req
  simp only [FirstFailing, checkVolumeID, checkTargetPath, checkCapabilityPresent,
    checkAccessTypePresent, checkPlainMount, checkAccessModePresent, checkNotSingleNodeReaderOnly, checkEphemeral] at h
  rcases h with ⟨h1, rfl⟩ | ⟨h1, h2, rfl⟩ | ⟨h1, h2, h3, rfl⟩ | ⟨h1, h2, h3, h4, rfl⟩ |
    ⟨h1, h2, h3, h4, h5, rfl⟩ | ⟨h1, h2, h3, h4, h5, h6, rfl⟩ |
    ⟨h1, h2, h3, h4, h5, h6, h7, rfl⟩ | ⟨h1, h2, h3, h4, h5, h6, h7, h8, rfl⟩
  · simp at h1
    simp [Driver.NodePublishVolume, Plugin.nodePublishVolume, h1]
  · simp at h1 h2
    simp [Driver.NodePublishVolume, Plugin.nodePublishVolume, h1, h2]
  · simp at h1 h2 h3
    simp [Driver.NodePublishVolume, Plugin.nodePublishVolume, h1, h2, h3]
  · simp at h1 h2
    rcases vc with _ | ⟨aty, am⟩
    · simp at h3
    · simp at h4
      simp [Driver.NodePublishVolume, Plugin.nodePublishVolume, h1, h2, h4]
  · simp at h1 h2
    rcases vc with _ | ⟨_ | (b | (_ | ⟨fs, fl⟩)), am⟩
    · simp at h3
    · simp at h4
    · simp [Driver.NodePublishVolume, Plugin.nodePublishVolume, h1, h2,
        WlapiCsiDriver.isVolumeCapabilityPlainMount, AgentCsi.isVolumeCapabilityPlainMount,
        VolumeCapability.GetMount]
    · simp [Driver.NodePublishVolume, Plugin.nodePublishVolume, h1, h2,
        WlapiCsiDriver.isVolumeCapabilityPlainMount, AgentCsi.isVolumeCapabilityPlainMount,
        VolumeCapability.GetMount]
    · simp at h5
      by_cases hfs : fs = ""
      · have hfl := h5 hfs
        simp [Driver.NodePublishVolume, Plugin.nodePublishVolume, h1, h2, hfs, hfl,
          WlapiCsiDriver.isVolumeCapabilityPlainMount, AgentCsi.isVolumeCapabilityPlainMount,
          VolumeCapability.GetMount]
      · simp [Driver.NodePublishVolume, Plugin.nodePublishVolume, h1, h2, hfs,
          WlapiCsiDriver.isVolumeCapabilityPlainMount, AgentCsi.isVolumeCapabilityPlainMount,
          VolumeCapability.GetMount]
  · simp at h1 h2
    rcases vc with _ | ⟨_ | (b | (_ | ⟨fs, fl⟩)), am⟩
    · simp at h3
    · simp at h4
    · simp at h5
    · simp at h5
    · simp at h5 h6
      obtain ⟨rfl, rfl⟩ := h5
      simp [Driver.NodePublishVolume, Plugin.nodePublishVolume, h1, h2, h6,
        WlapiCsiDriver.isVolumeCapabilityPlainMount, AgentCsi.isVolumeCapabilityPlainMount,
        VolumeCapability.GetMount]
  · simp at h1 h2
    rcases vc with _ | ⟨_ | (b | (_ | ⟨fs, fl⟩)), _ | ⟨mode⟩⟩ <;>
      first
      | (simp at h3; done)
      | (simp at h4; done)
      | (simp at h5; done)
      | (simp at h6; done)
      | skip
    simp at h5 h7
    obtain ⟨rfl, rfl⟩ := h5
    simp [Driver.NodePublishVolume, Plugin.nodePublishVolume, h1, h2, h7,
      WlapiCsiDriver.isVolumeCapabilityPlainMount, AgentCsi.isVolumeCapabilityPlainMount,
      WlapiCsiDriver.isVolumeCapabilityAccessModeReadOnly,
      AgentCsi.isVolumeCapabilityAccessModeReadOnly, VolumeCapability.GetMount]
  · simp at h1 h2
    rcases vc with _ | ⟨_ | (b | (_ | ⟨fs, fl⟩)), _ | ⟨mode⟩⟩ <;>
      first
      | (simp at h3; done)
      | (simp at h4; done)
      | (simp at h5; done)
      | (simp at h6; done)
      | skip
    simp at h5 h7 h8
    obtain ⟨rfl, rfl⟩ := h5
    simp [Driver.NodePublishVolume, Plugin.nodePublishVolume, h1, h2, h7, h8,
      WlapiCsiDriver.isVolumeCapabilityPlainMount, AgentCsi.isVolumeCapabilityPlainMount,
      WlapiCsiDriver.isVolumeCapabilityAccessModeReadOnly,
      AgentCsi.isVolumeCapabilityAccessModeReadOnly, VolumeCapability.GetMount,
      NodePublishVolumeRequest.GetVolumeContext]

/-- Claim C1. Both publish handlers evaluate the eight checks of `publishChecks` in
order: when check `k` is the first that fails on a request, the result is the
`InvalidArgument` error carrying the message of check `k`, whatever the later checks
would say, and the world is left as it was. -/
theorem publish_rejects_first_failing {σ : Type} (d : Driver) (p : Plugin) (env : Env σ)
    (req : NodePublishVolumeRequest) (w : World σ) (k : Nat) (c : Check)
    (hk : publishChecks[k]? = some c)
    (hprev : ∀ j c0, j < k → publishChecks[j]? = some c0 → c0.holds req = true)
    (hfail : c.holds req = false) :
    d.NodePublishVolume env req w = some (Except.error ⟨Code.InvalidArgument, c.message⟩, w) ∧
    p.nodePublishVolume env req w = some (Except.error ⟨Code.InvalidArgument, c.message⟩, w) := by
  have hlt : k < 8 := by
    by_contra hge
    have hnone : publishChecks[k]? = none := by
      apply List.getElem?_eq_none
      simp only [publishChecks, List.length_cons, List.length_nil]
      omega
    rw [hnone] at hk
    exact absurd hk (by simp)
  have h0 : 0 < k → checkVolumeID req = true := fun hj =>
    hprev 0 ⟨checkVolumeID, "request missing required volume id"⟩ hj rfl
  have h1 : 1 < k → checkTargetPath req = true := fun hj =>
    hprev 1 ⟨checkTargetPath, "request missing required target path"⟩ hj rfl
  have h2 : 2 < k → checkCapabilityPresent req = true := fun hj =>
    hprev 2 ⟨checkCapabilityPresent, "request missing required volume capability"⟩ hj rfl
  have h3 : 3 < k → checkAccessTypePresent req = true := fun hj =>
    hprev 3 ⟨checkAccessTypePresent,
      "request missing required volume capability access type"⟩ hj rfl
  have h4 : 4 < k → checkPlainMount req = true := fun hj =>
    hprev 4 ⟨checkPlainMount, "request volume capability access type must be mount"⟩ hj rfl
  have h5 : 5 < k → checkAccessModePresent req = true := fun hj =>
    hprev 5 ⟨checkAccessModePresent,
      "request missing required volume capability access mode"⟩ hj rfl
  have h6 : 6 < k → checkNotSingleNodeReaderOnly req = true := fun hj =>
    hprev 6 ⟨checkNotSingleNodeReaderOnly,
      "request missing required volume capability access mode"⟩ hj rfl
  change d.NodePublishVolume env req w = some (status_Error Code.InvalidArgument c.message, w) ∧
    p.nodePublishVolume env req w = some (status_Error Code.InvalidArgument c.message, w)
  apply publish_chain
  interval_cases k
  · simp only [publishChecks, List.getElem?_cons_zero, Option.some.injEq] at hk
    subst hk
    exact Or.inl ⟨hfail, rfl⟩
  · simp only [publishChecks, List.getElem?_cons_succ, List.getElem?_cons_zero,
      Option.some.injEq] at hk
    subst hk
    exact Or.inr (Or.inl ⟨h0 (by omega), hfail, rfl⟩)
  · simp only [publishChecks, List.getElem?_cons_succ, List.getElem?_cons_zero,
      Option.some.injEq] at hk
    subst hk
    exact Or.inr (Or.inr (Or.inl ⟨h0 (by omega), h1 (by omega), hfail, rfl⟩))
  · simp only [publishChecks, List.getElem?_cons_succ, List.getElem?_cons_zero,
      Option.some.injEq] at hk
    subst hk
    exact Or.inr (Or.inr (Or.inr (Or.inl
      ⟨h0 (by omega), h1 (by omega), h2 (by omega), hfail, rfl⟩)))
  · simp only [publishChecks, List.getElem?_cons_succ, List.getElem?_cons_zero,
      Option.some.injEq] at hk
    subst hk
    exact Or.inr (Or.inr (Or.inr (Or.inr (Or.inl
      ⟨h0 (by omega), h1 (by omega), h2 (by omega), h3 (by omega), hfail, rfl⟩))))
  · simp only [publishChecks, List.getElem?_cons_succ, List.getElem?_cons_zero,
      Option.some.injEq] at hk
    subst hk
    exact Or.inr (Or.inr (Or.inr (Or.inr (Or.inr (Or.inl
      ⟨h0 (by omega), h1 (by omega), h2 (by omega), h3 (by omega), h4 (by omega),
        hfail, rfl⟩)))))
  · simp only [publishChecks, List.getElem?_cons_succ, List.getElem?_cons_zero,
      Option.some.injEq] at hk
    subst hk
    exact Or.inr (Or.inr (Or.inr (Or.inr (Or.inr (Or.inr (Or.inl
      ⟨h0 (by omega), h1 (by omega), h2 (by omega), h3 (by omega), h4 (by omega),
        h5 (by omega), hfail, rfl⟩))))))
  · simp only [publishChecks, List.getElem?_cons_succ, List.getElem?_cons_zero,
      Option.some.injEq] at hk
    subst hk
    exact Or.inr (Or.inr (Or.inr (Or.inr (Or.inr (Or.inr (Or.inr
      ⟨h0 (by omega), h1 (by omega), h2 (by omega), h3 (by omega), h4 (by omega),
        h5 (by omega), h6 (by omega), hfail, rfl⟩))))))

/-- A request that does not pass validation has a first failing check. -/
theorem exists_firstFailing (req : NodePublishVolumeRequest)
    (h : passesValidation req = false) : ∃ msg, FirstFailing req msg := by
  simp only [passesValidation, publishChecks, List.all_cons, List.all_nil, Bool.and_true] at h
  unfold FirstFailing
  cases h1 : checkVolumeID req
  · exact ⟨_, Or.inl ⟨rfl, rfl⟩⟩
  cases h2 : checkTargetPath req
  · exact ⟨_, Or.inr (Or.inl ⟨rfl, rfl, rfl⟩)⟩
  cases h3 : checkCapabilityPresent req
  · exact ⟨_, Or.inr (Or.inr (Or.inl ⟨rfl, rfl, rfl, rfl⟩))⟩
  cases h4 : checkAccessTypePresent req
  · exact ⟨_, Or.inr (Or.inr (Or.inr (Or.inl ⟨rfl, rfl, rfl, rfl, rfl⟩)))⟩
  cases h5 : checkPlainMount req
  · exact ⟨_, Or.inr (Or.inr (Or.inr (Or.inr (Or.inl ⟨rfl, rfl, rfl, rfl, rfl, rfl⟩))))⟩
  cases h6 : checkAccessModePresent req
  · exact ⟨_, Or.inr (Or.inr (Or.inr (Or.inr (Or.inr (Or.inl
      ⟨rfl, rfl, rfl, rfl, rfl, rfl, rfl⟩)))))⟩
  cases h7 : checkNotSingleNodeReaderOnly req
  · exact ⟨_, Or.inr (Or.inr (Or.inr (Or.inr (Or.inr (Or.inr (Or.inl
      ⟨rfl, rfl, rfl, rfl, rfl, rfl, rfl, rfl⟩))))))⟩
  cases h8 : checkEphemeral req
  · exact ⟨_, Or.inr (Or.inr (Or.inr (Or.inr (Or.inr (Or.inr (Or.inr
      ⟨rfl, rfl, rfl, rfl, rfl, rfl, rfl, rfl, rfl⟩))))))⟩
  simp [h1, h2, h3, h4, h5, h6, h7, h8] at h

/-- A request that does not pass validation is rejected by both publish handlers with
`InvalidArgument`, the world untouched. -/
theorem publish_of_not_passes {σ : Type} (d : Driver) (p : Plugin) (env : Env σ)
    (req : NodePublishVolumeRequest) (w : World σ) (h : passesValidation req = false) :
    ∃ msg, d.NodePublishVolume env req w = some (Except.error ⟨Code.InvalidArgument, msg⟩, w) ∧
      p.nodePublishVolume env req w = some (Except.error ⟨Code.InvalidArgument, msg⟩, w) := by
  obtain ⟨msg, hmsg⟩ := exists_firstFailing req h
  exact ⟨msg, publish_chain d p env req w msg hmsg⟩

/-- The log after `os.Mkdir`. -/
theorem os_Mkdir_log {σ : Type} (env : Env σ) (name : String) (perm : Nat) (w : World σ) :
    (os_Mkdir env name perm w).2.log = w.log ++ [OSCall.mkdir name perm] := rfl

/-- The log after `unix.Mount`. -/
theorem unix_Mount_log {σ : Type} (env : Env σ) (src tgt fst : String) (fl : Nat)
    (da : String) (w : World σ) :
    (unix_Mount env src tgt fst fl da w).2.log = w.log ++ [OSCall.mount src tgt fst fl da] :=
  rfl

/-- Claim C10. The publish validation chain never dereferences nil: on every request,
whichever optional fields are absent, both handlers return a result, and that result is
either an `InvalidArgument` rejection with the world untouched or the outcome of the
operating-system part, which starts with the `os.Mkdir` call. The helper
`isVolumeCapabilityAccessModeReadOnly` itself panics on an absent access mode. -/
theorem publish_validation_total {σ : Type} (d : Driver) (p : Plugin) (env : Env σ)
    (req : NodePublishVolumeRequest) (w : World σ) :
    WlapiCsiDriver.isVolumeCapabilityAccessModeReadOnly none = none ∧
    AgentCsi.isVolumeCapabilityAccessModeReadOnly none = none ∧
    (∃ out, d.NodePublishVolume env req w = some out ∧
      ((∃ msg, out = (Except.error ⟨Code.InvalidArgument, msg⟩, w)) ∨
        (outcomeClass out.1 ≠ Code.InvalidArgument ∧
          (w.log ++ [OSCall.mkdir req.TargetPath 0o777]) <+: out.2.log))) ∧
    (∃ out, p.nodePublishVolume env req w = some out ∧
      ((∃ msg, out = (Except.error ⟨Code.InvalidArgument, msg⟩, w)) ∨
        (outcomeClass out.1 ≠ Code.InvalidArgument ∧
          (w.log ++ [OSCall.mkdir req.TargetPath 0o777]) <+: out.2.log))) := by
  refine ⟨rfl, rfl, ?_⟩
  cases h : passesValidation req
  · obtain ⟨msg, hd, hp⟩ := publish_of_not_passes d p env req w h
    exact ⟨⟨_, hd, Or.inl ⟨msg, rfl⟩⟩, ⟨_, hp, Or.inl ⟨msg, rfl⟩⟩⟩
  · rw [Driver.NodePublishVolume_of_passes d env req w h,
      Plugin.nodePublishVolume_of_passes p env req w h]
    constructor
    · split_ifs
      · exact ⟨_, rfl, Or.inr ⟨by simp [outcomeClass, status_Error], by
          rw [os_Mkdir_log]⟩⟩
      · exact ⟨_, rfl, Or.inr ⟨by simp [outcomeClass, status_Error], by
          rw [unix_Mount_log, os_Mkdir_log]; exact List.prefix_append _ _⟩⟩
      · exact ⟨_, rfl, Or.inr ⟨by simp [outcomeClass], by
          rw [unix_Mount_log, os_Mkdir_log]; exact List.prefix_append _ _⟩⟩
    · split_ifs
      · exact ⟨_, rfl, Or.inr ⟨by simp [outcomeClass, status_Error], by
          rw [os_Mkdir_log]⟩⟩
      · exact ⟨_, rfl, Or.inr ⟨by simp [outcomeClass, status_Error], by
          rw [unix_Mount_log, os_Mkdir_log]; exact List.prefix_append _ _⟩⟩
      · exact ⟨_, rfl, Or.inr ⟨by simp [outcomeClass], by
          rw [unix_Mount_log, os_Mkdir_log]; exact List.prefix_append _ _⟩⟩

/-- The log after `unix.Unmount`. -/
theorem unix_Unmount_log {σ : Type} (env : Env σ) (tgt : String) (fl : Int) (w : World σ) :
    (unix_Unmount env tgt fl w).2.log = w.log ++ [OSCall.unmount tgt fl] := rfl

/-- The log after `os.Remove`. -/
theorem os_Remove_log {σ : Type} (env : Env σ) (name : String) (w : World σ) :
    (os_Remove env name w).2.log = w.log ++ [OSCall.remove name] := rfl

/-- With a volume id and a target path, `Driver.NodeUnpublishVolume` is its
operating-system part: `unix.Unmount` followed by `os.Remove`. -/
theorem Driver.NodeUnpublishVolume_of_nonempty {σ : Type} (d : Driver) (env : Env σ)
    (req : NodeUnpublishVolumeRequest) (w : World σ)
    (h1 : req.VolumeId ≠ "") (h2 : req.TargetPath ≠ "") :
    d.NodeUnpublishVolume env req w =
      if (unix_Unmount env req.TargetPath 0 w).1 ≠ none then
        some (status_Error Code.Internal
          ("unable to unmount " ++ env.quote req.TargetPath ++ ": "
            ++ GoError.Error env (unix_Unmount env req.TargetPath 0 w).1),
          (unix_Unmount env req.TargetPath 0 w).2)
      else if (os_Remove env req.TargetPath (unix_Unmount env req.TargetPath 0 w).2).1 ≠ none then
        some (status_Error Code.Internal
          ("unable to remove target path " ++ env.quote req.TargetPath ++ ": "
            ++ GoError.Error env
              (os_Remove env req.TargetPath (unix_Unmount env req.TargetPath 0 w).2).1),
          (os_Remove env req.TargetPath (unix_Unmount env req.TargetPath 0 w).2).2)
      else
        some (Except.ok {},
          (os_Remove env req.TargetPath (unix_Unmount env req.TargetPath 0 w).2).2) := by
  simp only [Driver.NodeUnpublishVolume, h1, h2, if_false]

/-- With a volume id and a target path, `Plugin.nodeUnpublishVolume` is its
operating-system part: `unix.Unmount` followed by `os.Remove`. -/
theorem Plugin.nodeUnpublishVolume_of_nonempty {σ : Type} (p : Plugin) (env : Env σ)
    (req : NodeUnpublishVolumeRequest) (w : World σ)
    (h1 : req.VolumeId ≠ "") (h2 : req.TargetPath ≠ "") :
    p.nodeUnpublishVolume env req w =
      if (unix_Unmount env req.TargetPath 0 w).1 ≠ none then
        some (status_Error Code.Internal
          ("unable to unmount " ++ env.quote req.TargetPath ++ ": "
            ++ GoError.Error env (unix_Unmount env req.TargetPath 0 w).1),
          (unix_Unmount env req.TargetPath 0 w).2)
      else if (os_Remove env req.TargetPath (unix_Unmount env req.TargetPath 0 w).2).1 ≠ none then
        some (status_Error Code.Internal
          ("unable to remove target path " ++ env.quote req.TargetPath ++ ": "
            ++ GoError.Error env
              (os_Remove env req.TargetPath (unix_Unmount env req.TargetPath 0 w).2).1),
          (os_Remove env req.TargetPath (unix_Unmount env req.TargetPath 0 w).2).2)
      else
        some (Except.ok {},
          (os_Remove env req.TargetPath (unix_Unmount env req.TargetPath 0 w).2).2) := by
  simp only [Plugin.nodeUnpublishVolume, h1, h2, if_false]

/-- Without a volume id or without a target path, both unpublish handlers reject the
request with `InvalidArgument`, the world untouched. -/
theorem unpublish_of_empty {σ : Type} (d : Driver) (p : Plugin) (env : Env σ)
    (req : NodeUnpublishVolumeRequest) (w : World σ)
    (h : req.VolumeId = "" ∨ req.TargetPath = "") :
    ∃ msg, d.NodeUnpublishVolume env req w =
        some (Except.error ⟨Code.InvalidArgument, msg⟩, w) ∧
      p.nodeUnpublishVolume env req w = some (Except.error ⟨Code.InvalidArgument, msg⟩, w) := by
  by_cases h1 : req.VolumeId = ""
  · exact ⟨"request missing required volume id", by
      simp [Driver.NodeUnpublishVolume, Plugin.nodeUnpublishVolume, h1, status_Error]⟩
  · have h2 : req.TargetPath = "" := h.resolve_left h1
    exact ⟨"request missing required target path", by
      simp [Driver.NodeUnpublishVolume, Plugin.nodeUnpublishVolume, h1, h2, status_Error]⟩

/-- Claim C2. A publish call that returns `InvalidArgument` and an unpublish call that
returns `InvalidArgument` leave the world exactly as it was: the state of the operating
system is unchanged and the log of calls has not grown, so no mkdir, mount, unmount or
remove call was made. Unpublish returns `InvalidArgument` exactly when the volume id or
the target path is empty. This holds for every environment, the explicit model `linux`
over directories and a mount table included. -/
theorem invalid_argument_no_effect {σ : Type} (d : Driver) (env : Env σ) :
    (∀ (req : NodePublishVolumeRequest) (w w1 : World σ) (st : Status),
      d.NodePublishVolume env req w = some (Except.error st, w1) →
      st.code = Code.InvalidArgument → w1 = w) ∧
    (∀ (req : NodeUnpublishVolumeRequest) (w w1 : World σ) (st : Status),
      d.NodeUnpublishVolume env req w = some (Except.error st, w1) →
      st.code = Code.InvalidArgument → w1 = w) ∧
    (∀ (req : NodeUnpublishVolumeRequest) (w : World σ),
      (∃ st w1, d.NodeUnpublishVolume env req w = some (Except.error st, w1) ∧
        st.code = Code.InvalidArgument) ↔ (req.VolumeId = "" ∨ req.TargetPath = "")) := by
  have key : ∀ (req : NodeUnpublishVolumeRequest) (w w1 : World σ) (st : Status),
      d.NodeUnpublishVolume env req w = some (Except.error st, w1) →
      st.code = Code.InvalidArgument → (req.VolumeId = "" ∨ req.TargetPath = "") := by
    intro req w w1 st hrun hcode
    by_contra hne
    push_neg at hne
    rw [Driver.NodeUnpublishVolume_of_nonempty d env req w hne.1 hne.2] at hrun
    split_ifs at hrun <;>
      simp only [status_Error, Option.some.injEq, Prod.mk.injEq, Except.error.injEq,
        reduceCtorEq, false_and] at hrun
    all_goals
      obtain ⟨hst, _⟩ := hrun
      rw [← hst] at hcode
      simp at hcode
  refine ⟨?_, ?_, ?_⟩
  · intro req w w1 st hrun hcode
    cases h : passesValidation req
    · obtain ⟨msg, hd, _⟩ := publish_of_not_passes d ⟨⟨""⟩⟩ env req w h
      rw [hd] at hrun
      simp only [Option.some.injEq, Prod.mk.injEq] at hrun
      exact hrun.2.symm
    · rw [Driver.NodePublishVolume_of_passes d env req w h] at hrun
      split_ifs at hrun <;>
        simp only [status_Error, Option.some.injEq, Prod.mk.injEq, Except.error.injEq,
          reduceCtorEq, false_and] at hrun
      all_goals
        obtain ⟨hst, _⟩ := hrun
        rw [← hst] at hcode
        simp at hcode
  · intro req w w1 st hrun hcode
    obtain ⟨msg, hd, _⟩ := unpublish_of_empty d ⟨⟨""⟩⟩ env req w (key req w w1 st hrun hcode)
    rw [hd] at hrun
    simp only [Option.some.injEq, Prod.mk.injEq] at hrun
    exact hrun.2.symm
  · intro req w
    constructor
    · rintro ⟨st, w1, hrun, hcode⟩
      exact key req w w1 st hrun hcode
    · intro hempty
      obtain ⟨msg, hd, _⟩ := unpublish_of_empty d ⟨⟨""⟩⟩ env req w hempty
      exact ⟨_, w, hd, rfl⟩

/-- Claim C9. When `Plugin.config.SocketDir` equals `Driver.WorkloadAPIDir`, the two
implementations agree on every publish request and on every unpublish request, in every
environment and from every world: they return the same outcome class and end in the
same world, that is, the same state of the operating system and the same log of calls
with the same arguments. -/
theorem implementations_agree {σ : Type} (d : Driver) (p : Plugin) (env : Env σ)
    (hdir : p.config.SocketDir = d.WorkloadAPIDir) :
    (∀ (req : NodePublishVolumeRequest) (w : World σ),
      (p.nodePublishVolume env req w).map (fun out => (outcomeClass out.1, out.2)) =
        (d.NodePublishVolume env req w).map (fun out => (outcomeClass out.1, out.2))) ∧
    (∀ (req : NodeUnpublishVolumeRequest) (w : World σ),
      (p.nodeUnpublishVolume env req w).map (fun out => (outcomeClass out.1, out.2)) =
        (d.NodeUnpublishVolume env req w).map (fun out => (outcomeClass out.1, out.2))) := by
  constructor
  · intro req w
    cases h : passesValidation req
    · obtain ⟨msg, hd, hp⟩ := publish_of_not_passes d p env req w h
      rw [hd, hp]
    · rw [Driver.NodePublishVolume_of_passes d env req w h,
        Plugin.nodePublishVolume_of_passes p env req w h, hdir]
      split_ifs <;> simp [outcomeClass, status_Error]
  · intro req w
    by_cases h : req.VolumeId = "" ∨ req.TargetPath = ""
    · obtain ⟨msg, hd, hp⟩ := unpublish_of_empty d p env req w h
      rw [hd, hp]
    · push_neg at h
      rw [Driver.NodeUnpublishVolume_of_nonempty d env req w h.1 h.2,
        Plugin.nodeUnpublishVolume_of_nonempty p env req w h.1 h.2]

/-- The world after `os.Mkdir` followed by `unix.Mount`. -/
theorem mkdir_mount_world {σ : Type} (env : Env σ) (name : String) (perm : Nat)
    (src tgt fst : String) (fl : Nat) (da : String) (w : World σ) :
    (unix_Mount env src tgt fst fl da (os_Mkdir env name perm w).2).2 =
      ⟨(env.mount src tgt fst fl da (env.mkdir name perm w.state).2).2,
        w.log ++ [OSCall.mkdir name perm, OSCall.mount src tgt fst fl da]⟩ := by
  simp [unix_Mount, os_Mkdir]

/-- The world after `unix.Unmount` followed by `os.Remove`. -/
theorem unmount_remove_world {σ : Type} (env : Env σ) (tgt : String) (fl : Int)
    (name : String) (w : World σ) :
    (os_Remove env name (unix_Unmount env tgt fl w).2).2 =
      ⟨(env.remove name (env.unmount tgt fl w.state).2).2,
        w.log ++ [OSCall.unmount tgt fl, OSCall.remove name]⟩ := by
  simp [unix_Unmount, os_Remove]

/-- Claim C6. On a request that passes validation, in every environment,
`Driver.NodePublishVolume` first calls mkdir on the target path with mode 0777. When
mkdir fails with an errno other than the two `os.IsExist` accepts (`EEXIST`,
`ENOTEMPTY`), the result is `Internal` and mkdir is the only call made. When mkdir
succeeds or fails with one of these two, mount is called exactly once, right after, and
the result depends on mount alone: `Internal` when mount fails, with no call after it,
and the empty response when it succeeds. -/
theorem publish_sequence {σ : Type} (d : Driver) (env : Env σ)
    (req : NodePublishVolumeRequest) (w : World σ) (h : passesValidation req = true) :
    ((∃ e, (env.mkdir req.TargetPath 0o777 w.state).1 = some e ∧ e ≠ EEXIST ∧ e ≠ ENOTEMPTY) →
      ∃ msg, d.NodePublishVolume env req w =
        some (Except.error ⟨Code.Internal, msg⟩,
          ⟨(env.mkdir req.TargetPath 0o777 w.state).2,
            w.log ++ [OSCall.mkdir req.TargetPath 0o777]⟩)) ∧
    (((env.mkdir req.TargetPath 0o777 w.state).1 = none ∨
        (env.mkdir req.TargetPath 0o777 w.state).1 = some EEXIST ∨
        (env.mkdir req.TargetPath 0o777 w.state).1 = some ENOTEMPTY) →
      ((∃ e, (env.mount d.WorkloadAPIDir req.TargetPath "none" 4097 ""
            (env.mkdir req.TargetPath 0o777 w.state).2).1 = some e) →
        ∃ msg, d.NodePublishVolume env req w =
          some (Except.error ⟨Code.Internal, msg⟩,
            ⟨(env.mount d.WorkloadAPIDir req.TargetPath "none" 4097 ""
                (env.mkdir req.TargetPath 0o777 w.state).2).2,
              w.log ++ [OSCall.mkdir req.TargetPath 0o777,
                OSCall.mount d.WorkloadAPIDir req.TargetPath "none" 4097 ""]⟩)) ∧
      ((env.mount d.WorkloadAPIDir req.TargetPath "none" 4097 ""
            (env.mkdir req.TargetPath 0o777 w.state).2).1 = none →
        d.NodePublishVolume env req w =
          some (Except.ok {},
            ⟨(env.mount d.WorkloadAPIDir req.TargetPath "none" 4097 ""
                (env.mkdir req.TargetPath 0o777 w.state).2).2,
              w.log ++ [OSCall.mkdir req.TargetPath 0o777,
                OSCall.mount d.WorkloadAPIDir req.TargetPath "none" 4097 ""]⟩))) := by
  rw [Driver.NodePublishVolume_of_passes d env req w h]
  refine ⟨?_, ?_⟩
  · rintro ⟨e, he, hne1, hne2⟩
    have hE1 : ¬ e = 17 := hne1
    have hE2 : ¬ e = 39 := hne2
    have hstop : (os_Mkdir env req.TargetPath 0o777 w).1 ≠ none ∧
        ¬ os_IsExist (os_Mkdir env req.TargetPath 0o777 w).1 = true := by
      simp [os_Mkdir, he, os_IsExist, EEXIST, ENOTEMPTY, hE1, hE2]
    rw [if_pos hstop]
    exact ⟨_, rfl⟩
  · intro hmk
    have hgo : ¬ ((os_Mkdir env req.TargetPath 0o777 w).1 ≠ none ∧
        ¬ os_IsExist (os_Mkdir env req.TargetPath 0o777 w).1 = true) := by
      rcases hmk with hm | hm | hm <;> simp [os_Mkdir, hm, os_IsExist, EEXIST, ENOTEMPTY]
    rw [if_neg hgo]
    constructor
    · rintro ⟨e, he⟩
      have hfail : (unix_Mount env d.WorkloadAPIDir req.TargetPath "none" 4097 ""
          (os_Mkdir env req.TargetPath 0o777 w).2).1 ≠ none := by
        simp [unix_Mount, os_Mkdir, he]
      rw [if_pos hfail, mkdir_mount_world]
      exact ⟨_, rfl⟩
    · intro he
      have hok : ¬ (unix_Mount env d.WorkloadAPIDir req.TargetPath "none" 4097 ""
          (os_Mkdir env req.TargetPath 0o777 w).2).1 ≠ none := by
        simp [unix_Mount, os_Mkdir, he]
      rw [if_neg hok, mkdir_mount_world]

/-- The explicit model: unmount of a path that is not mounted fails and leaves the
state as it was. -/
theorem linux_unmount_not_mounted (s : FS) (tp : String) (hnm : s.isMounted tp = false) :
    (∃ e, (linux.unmount tp 0 s).1 = some e) ∧ (linux.unmount tp 0 s).2 = s := by
  simp only [linux, linuxModel, FS.unmount]
  by_cases hnul : hasNUL tp = true
  · simp [hnul]
  · simp only [hnul, if_false, ne_eq, not_true_eq_false]
    simp only [FS.isMounted] at hnm
    rcases hd : s.dirOf tp with q | e | _
    · rw [hd] at hnm
      simp only [Bool.or_eq_false_iff, decide_eq_false_iff_not] at hnm
      simp [hnm.1, hnm.2]
    · simp
    · rw [hd] at hnm
      simp at hnm

/-- Claim C7. On an unpublish request with a volume id and a target path, in every
environment, `Driver.NodeUnpublishVolume` never returns `InvalidArgument` and calls
unmount on the target path with flags 0 exactly once. When unmount fails the result is
`Internal` and unmount is the only call made: no second unmount, no remove. When unmount
succeeds, remove is called on the target path; the result is `Internal` when remove
fails and the empty response when it succeeds. In particular, in the explicit model,
unpublish on a path that is not mounted returns `Internal` and leaves the state of the
operating system, the directory included, as it was. -/
theorem unpublish_sequence {σ : Type} (d : Driver) (env : Env σ)
    (req : NodeUnpublishVolumeRequest) (w : World σ)
    (h1 : req.VolumeId ≠ "") (h2 : req.TargetPath ≠ "") :
    (∃ out, d.NodeUnpublishVolume env req w = some out ∧
      outcomeClass out.1 ≠ Code.InvalidArgument) ∧
    ((∃ e, (env.unmount req.TargetPath 0 w.state).1 = some e) →
      ∃ msg, d.NodeUnpublishVolume env req w =
        some (Except.error ⟨Code.Internal, msg⟩,
          ⟨(env.unmount req.TargetPath 0 w.state).2,
            w.log ++ [OSCall.unmount req.TargetPath 0]⟩)) ∧
    ((env.unmount req.TargetPath 0 w.state).1 = none →
      ((∃ e, (env.remove req.TargetPath (env.unmount req.TargetPath 0 w.state).2).1 = some e) →
        ∃ msg, d.NodeUnpublishVolume env req w =
          some (Except.error ⟨Code.Internal, msg⟩,
            ⟨(env.remove req.TargetPath (env.unmount req.TargetPath 0 w.state).2).2,
              w.log ++ [OSCall.unmount req.TargetPath 0, OSCall.remove req.TargetPath]⟩)) ∧
      ((env.remove req.TargetPath (env.unmount req.TargetPath 0 w.state).2).1 = none →
        d.NodeUnpublishVolume env req w =
          some (Except.ok {},
            ⟨(env.remove req.TargetPath (env.unmount req.TargetPath 0 w.state).2).2,
              w.log ++ [OSCall.unmount req.TargetPath 0, OSCall.remove req.TargetPath]⟩))) ∧
    (∀ (s : FS) (l : List OSCall), s.isMounted req.TargetPath = false →
      ∃ msg, d.NodeUnpublishVolume linux req ⟨s, l⟩ =
        some (Except.error ⟨Code.Internal, msg⟩,
          ⟨s, l ++ [OSCall.unmount req.TargetPath 0]⟩)) := by
  have hfailcase : ∀ (σ0 : Type) (env0 : Env σ0) (w0 : World σ0),
      (∃ e, (env0.unmount req.TargetPath 0 w0.state).1 = some e) →
      ∃ msg, d.NodeUnpublishVolume env0 req w0 =
        some (Except.error ⟨Code.Internal, msg⟩,
          ⟨(env0.unmount req.TargetPath 0 w0.state).2,
            w0.log ++ [OSCall.unmount req.TargetPath 0]⟩) := by
    rintro σ0 env0 w0 ⟨e, he⟩
    rw [Driver.NodeUnpublishVolume_of_nonempty d env0 req w0 h1 h2]
    have hfail : (unix_Unmount env0 req.TargetPath 0 w0).1 ≠ none := by
      simp [unix_Unmount, he]
    rw [if_pos hfail]
    exact ⟨_, rfl⟩
  refine ⟨?_, hfailcase σ env w, ?_, ?_⟩
  · rw [Driver.NodeUnpublishVolume_of_nonempty d env req w h1 h2]
    split_ifs
    · exact ⟨_, rfl, by simp [outcomeClass, status_Error]⟩
    · exact ⟨_, rfl, by simp [outcomeClass, status_Error]⟩
    · exact ⟨_, rfl, by simp [outcomeClass]⟩
  · intro hum
    rw [Driver.NodeUnpublishVolume_of_nonempty d env req w h1 h2]
    have hgo : ¬ (unix_Unmount env req.TargetPath 0 w).1 ≠ none := by
      simp [unix_Unmount, hum]
    rw [if_neg hgo]
    constructor
    · rintro ⟨e, he⟩
      have hfail : (os_Remove env req.TargetPath (unix_Unmount env req.TargetPath 0 w).2).1
          ≠ none := by
        simp [os_Remove, unix_Unmount, he]
      rw [if_pos hfail, unmount_remove_world]
      exact ⟨_, rfl⟩
    · intro he
      have hok : ¬ (os_Remove env req.TargetPath (unix_Unmount env req.TargetPath 0 w).2).1
          ≠ none := by
        simp [os_Remove, unix_Unmount, he]
      rw [if_neg hok, unmount_remove_world]
  · intro s l hnm
    have hboth : (∃ e, (linux.unmount req.TargetPath 0 s).1 = some e) ∧
        (linux.unmount req.TargetPath 0 s).2 = s :=
      linux_unmount_not_mounted s req.TargetPath hnm
    obtain ⟨msg, hmsg⟩ := hfailcase FS linux ⟨s, l⟩ hboth.1
    rw [hboth.2] at hmsg
    exact ⟨msg, hmsg⟩

/-- A request that a publish handler does not reject with `InvalidArgument` passes the
eight checks. -/
theorem passes_of_not_rejected {σ : Type} (d : Driver) (p : Plugin) (env : Env σ)
    (req : NodePublishVolumeRequest) (w : World σ)
    (out : Except Status NodePublishVolumeResponse × World σ)
    (hrun : d.NodePublishVolume env req w = some out ∨ p.nodePublishVolume env req w = some out)
    (hacc : outcomeClass out.1 ≠ Code.InvalidArgument) : passesValidation req = true := by
  cases h : passesValidation req
  · exfalso
    obtain ⟨msg, hd, hp⟩ := publish_of_not_passes d p env req w h
    rcases hrun with hrun | hrun
    · rw [hd] at hrun
      simp only [Option.some.injEq] at hrun
      rw [← hrun] at hacc
      exact hacc rfl
    · rw [hp] at hrun
      simp only [Option.some.injEq] at hrun
      rw [← hrun] at hacc
      exact hacc rfl
  · rfl

/-- Claim C3, counterexample. The request of the concrete scenario with access mode
MULTI_NODE_READER_ONLY is not rejected: publish succeeds on it, although its access mode
is a read-only mode and the acceptance invariant, read with both reader-only modes, does
not hold of it. -/
theorem multi_node_reader_only_accepted :
    (exampleDriver.NodePublishVolume linux exampleRequestMultiReader ⟨exampleFS, []⟩).map
      (fun out => outcomeClass out.1) = some Code.OK ∧
    (examplePlugin.nodePublishVolume linux exampleRequestMultiReader ⟨exampleFS, []⟩).map
      (fun out => outcomeClass out.1) = some Code.OK ∧
    exampleRequestMultiReader.VolumeCapability.bind (fun vc => vc.AccessMode) =
      some ⟨AccessMode_MULTI_NODE_READER_ONLY⟩ ∧
    acceptanceInvariant exampleRequestMultiReader = false := by
  decide

/-- Claim C3, amended. Every publish request that `Driver.NodePublishVolume` or
`Plugin.nodePublishVolume` does not reject with `InvalidArgument` has a non-empty volume
id and target path, the mount access type with empty fsType and empty mountFlags, an
access mode that is present and is not SINGLE_NODE_READER_ONLY, and a volume context
that maps the ephemeral marker key to exactly the string `true`. -/
theorem accepted_request_invariant {σ : Type} (d : Driver) (p : Plugin) (env : Env σ)
    (req : NodePublishVolumeRequest) (w : World σ)
    (out : Except Status NodePublishVolumeResponse × World σ)
    (hrun : d.NodePublishVolume env req w = some out ∨ p.nodePublishVolume env req w = some out)
    (hacc : outcomeClass out.1 ≠ Code.InvalidArgument) :
    req.VolumeId ≠ "" ∧ req.TargetPath ≠ "" ∧
    (∃ am, req.VolumeCapability =
        some ⟨some (AccessType.Mount (some ⟨"", []⟩)), some am⟩ ∧
      am.Mode ≠ AccessMode_SINGLE_NODE_READER_ONLY) ∧
    (∃ l, req.VolumeContext = some l ∧
      l.lookup "csi.storage.k8s.io/ephemeral" = some "true") := by
  have hpass := passes_of_not_rejected d p env req w out hrun hacc
  obtain ⟨h1, h2, h3, h4⟩ := (passesValidation_iff req).1 hpass
  refine ⟨h1, h2, h3, ?_⟩
  rcases hctx : req.VolumeContext with _ | l
  · rw [hctx] at h4
    simp [mapIndex] at h4
  · refine ⟨l, rfl, ?_⟩
    rw [hctx] at h4
    simp only [mapIndex] at h4
    rcases hl : l.lookup "csi.storage.k8s.io/ephemeral" with _ | v
    · rw [hl] at h4
      simp at h4
    · rw [hl] at h4
      simp only [Option.getD_some] at h4
      rw [h4]

/-- Witness of `accepted_request_invariant`: the concrete scenario, published on the
example directory tree. -/
theorem accepted_request_invariant_witness :
    exampleRequest.VolumeId ≠ "" ∧ exampleRequest.TargetPath ≠ "" ∧
    (∃ am, exampleRequest.VolumeCapability =
        some ⟨some (AccessType.Mount (some ⟨"", []⟩)), some am⟩ ∧
      am.Mode ≠ AccessMode_SINGLE_NODE_READER_ONLY) ∧
    (∃ l, exampleRequest.VolumeContext = some l ∧
      l.lookup "csi.storage.k8s.io/ephemeral" = some "true") :=
  accepted_request_invariant exampleDriver examplePlugin linux exampleRequest ⟨exampleFS, []⟩
    (Except.ok {}, ⟨⟨["pods", "p1", "mount"] :: exampleFS.dirs,
        [⟨["pods", "p1", "mount"], ["run", "spire", "sockets"], false⟩]⟩,
      [OSCall.mkdir "/pods/p1/mount" 511,
        OSCall.mount "/run/spire/sockets" "/pods/p1/mount" "none" 4097 ""]⟩)
    (Or.inl (by rfl)) (by decide)

/-- The calls a publish run of the driver issues: none, mkdir alone, or mkdir followed
by the one fixed mount call. -/
theorem driver_issuedCalls_publish {σ : Type} (d : Driver) (env : Env σ)
    (req : NodePublishVolumeRequest) (w : World σ) :
    issuedCalls w (d.NodePublishVolume env req w) = [] ∨
    issuedCalls w (d.NodePublishVolume env req w) = [OSCall.mkdir req.TargetPath 0o777] ∨
    issuedCalls w (d.NodePublishVolume env req w) =
      [OSCall.mkdir req.TargetPath 0o777,
        OSCall.mount d.WorkloadAPIDir req.TargetPath "none" 4097 ""] := by
  cases h : passesValidation req
  · obtain ⟨msg, hd, _⟩ := publish_of_not_passes d ⟨⟨""⟩⟩ env req w h
    left
    rw [hd]
    simp [issuedCalls]
  · rw [Driver.NodePublishVolume_of_passes d env req w h]
    split_ifs
    · right; left
      simp [issuedCalls, os_Mkdir]
    · right; right
      simp [issuedCalls, mkdir_mount_world]
    · right; right
      simp [issuedCalls, mkdir_mount_world]

/-- The calls a publish run of the plugin issues: none, mkdir alone, or mkdir followed
by the one fixed mount call. -/
theorem plugin_issuedCalls_publish {σ : Type} (p : Plugin) (env : Env σ)
    (req : NodePublishVolumeRequest) (w : World σ) :
    issuedCalls w (p.nodePublishVolume env req w) = [] ∨
    issuedCalls w (p.nodePublishVolume env req w) = [OSCall.mkdir req.TargetPath 0o777] ∨
    issuedCalls w (p.nodePublishVolume env req w) =
      [OSCall.mkdir req.TargetPath 0o777,
        OSCall.mount p.config.SocketDir req.TargetPath "none" 4097 ""] := by
  cases h : passesValidation req
  · obtain ⟨msg, _, hp⟩ := publish_of_not_passes ⟨"", ""⟩ p env req w h
    left
    rw [hp]
    simp [issuedCalls]
  · rw [Plugin.nodePublishVolume_of_passes p env req w h]
    split_ifs
    · right; left
      simp [issuedCalls, os_Mkdir]
    · right; right
      simp [issuedCalls, mkdir_mount_world]
    · right; right
      simp [issuedCalls, mkdir_mount_world]

/-- A mount call among the calls of a publish run is the fixed one. -/
theorem mount_call_eq_of_mem (L : List OSCall) (src tgt : String) (c : OSCall)
    (hL : L = [] ∨ L = [OSCall.mkdir tgt 0o777] ∨
      L = [OSCall.mkdir tgt 0o777, OSCall.mount src tgt "none" 4097 ""])
    (hc : c ∈ L) (hm : c.isMount = true) : c = OSCall.mount src tgt "none" 4097 "" := by
  rcases hL with hL | hL | hL <;> rw [hL] at hc
  · simp at hc
  · simp only [List.mem_singleton] at hc
    rw [hc] at hm
    simp [OSCall.isMount] at hm
  · simp only [List.mem_cons, List.mem_singleton, List.not_mem_nil, or_false] at hc
    rcases hc with hc | hc
    · rw [hc] at hm
      simp [OSCall.isMount] at hm
    · exact hc

/-- Claim C4. Every mount call that a publish handler issues, on whatever request and in
whatever environment, is the call with source the configured socket directory, target
the target path of the request, filesystem type the constant `none`, flags bind and
read-only (4096 ||| 1 = 4097) and empty data: nothing else of the request reaches it.
Hence the mount calls of two runs of the driver on requests with the same target path
are identical, whatever their volume ids, access modes and volume contexts, and whatever
the environments. -/
theorem mount_arguments_fixed {σ : Type} (d : Driver) (p : Plugin) (env : Env σ)
    (req : NodePublishVolumeRequest) (w : World σ) :
    (WlapiCsiDriver.msBind ||| WlapiCsiDriver.msRdOnly = 4097 ∧
      AgentCsi.msBind ||| AgentCsi.msRdOnly = 4097) ∧
    (∀ c ∈ issuedCalls w (d.NodePublishVolume env req w), c.isMount = true →
      c = OSCall.mount d.WorkloadAPIDir req.TargetPath "none"
        (WlapiCsiDriver.msBind ||| WlapiCsiDriver.msRdOnly) "") ∧
    (∀ c ∈ issuedCalls w (p.nodePublishVolume env req w), c.isMount = true →
      c = OSCall.mount p.config.SocketDir req.TargetPath "none"
        (AgentCsi.msBind ||| AgentCsi.msRdOnly) "") ∧
    (∀ (τ : Type) (env2 : Env τ) (req2 : NodePublishVolumeRequest) (w2 : World τ),
      req2.TargetPath = req.TargetPath →
      ∀ c ∈ issuedCalls w (d.NodePublishVolume env req w),
      ∀ c2 ∈ issuedCalls w2 (d.NodePublishVolume env2 req2 w2),
        c.isMount = true → c2.isMount = true → c = c2) := by
  refine ⟨mountFlags_eq, ?_, ?_, ?_⟩
  · intro c hc hm
    rw [mountFlags_eq.1]
    exact mount_call_eq_of_mem _ _ _ c (driver_issuedCalls_publish d env req w) hc hm
  · intro c hc hm
    rw [mountFlags_eq.2]
    exact mount_call_eq_of_mem _ _ _ c (plugin_issuedCalls_publish p env req w) hc hm
  · intro τ env2 req2 w2 htp c hc c2 hc2 hm hm2
    rw [mount_call_eq_of_mem _ _ _ c (driver_issuedCalls_publish d env req w) hc hm,
      mount_call_eq_of_mem _ _ _ c2 (driver_issuedCalls_publish d env2 req2 w2) hc2 hm2, htp]

/-- Witness of `mount_arguments_fixed`: on the concrete scenario the mount call is
issued, and it is the fixed one. -/
theorem mount_arguments_fixed_witness :
    OSCall.mount "/run/spire/sockets" "/pods/p1/mount" "none" 4097 "" ∈
      issuedCalls ⟨exampleFS, []⟩
        (exampleDriver.NodePublishVolume linux exampleRequest ⟨exampleFS, []⟩) ∧
    OSCall.mount "/run/spire/sockets" "/pods/p1/mount" "none" 4097 "" =
      OSCall.mount exampleDriver.WorkloadAPIDir exampleRequest.TargetPath "none"
        (WlapiCsiDriver.msBind ||| WlapiCsiDriver.msRdOnly) "" :=
  ⟨by decide,
    (mount_arguments_fixed exampleDriver examplePlugin linux exampleRequest
      ⟨exampleFS, []⟩).2.1 _ (by decide) (by decide)⟩

/-- Claim C5, at the failing input. With the socket directory missing, mount fails on
the concrete scenario. The `Internal` message of `Driver.NodePublishVolume` carries the
target path and the text of the error but not the source directory, while the message of
`Plugin.nodePublishVolume` carries all three. -/
theorem driver_mount_error_omits_source :
    (exampleDriver.NodePublishVolume linux exampleRequest ⟨exampleFSNoSource, []⟩).map
        (fun out => resultStatus out.1) =
      some (some ⟨Code.Internal,
        "unable to mount \"/pods/p1/mount\": no such file or directory"⟩) ∧
    containsText "unable to mount \"/pods/p1/mount\": no such file or directory"
      exampleDriver.WorkloadAPIDir = false ∧
    (examplePlugin.nodePublishVolume linux exampleRequest ⟨exampleFSNoSource, []⟩).map
        (fun out => resultStatus out.1) =
      some (some ⟨Code.Internal,
        "unable to mount \"/run/spire/sockets\" to \"/pods/p1/mount\": no such file or directory"⟩) ∧
    containsText
      "unable to mount \"/run/spire/sockets\" to \"/pods/p1/mount\": no such file or directory"
      examplePlugin.config.SocketDir = true := by
  decide


/-- Witness of `publish_rejects_first_failing`: the concrete scenario with an empty
volume context passes the first seven checks and fails the eighth, and is rejected with
the message of the eighth. -/
theorem publish_rejects_first_failing_witness :
    exampleDriver.NodePublishVolume linux exampleRequestNoContext ⟨exampleFS, []⟩ =
      some (Except.error ⟨Code.InvalidArgument, "only ephemeral volumes are supported"⟩,
        ⟨exampleFS, []⟩) ∧
    examplePlugin.nodePublishVolume linux exampleRequestNoContext ⟨exampleFS, []⟩ =
      some (Except.error ⟨Code.InvalidArgument, "only ephemeral volumes are supported"⟩,
        ⟨exampleFS, []⟩) :=
  publish_rejects_first_failing exampleDriver examplePlugin linux exampleRequestNoContext
    ⟨exampleFS, []⟩ 7 ⟨checkEphemeral, "only ephemeral volumes are supported"⟩ rfl
    (by
      intro j c0 hj hc
      interval_cases j <;>
        simp only [publishChecks, List.getElem?_cons_succ, List.getElem?_cons_zero,
          Option.some.injEq] at hc <;>
        subst hc <;> decide)
    (by decide)

/-- Witness of `invalid_argument_no_effect`: the concrete scenario with an empty volume
context returns `InvalidArgument`, and the world it ends in is the one it started from. -/
theorem invalid_argument_no_effect_witness :
    exampleDriver.NodePublishVolume linux exampleRequestNoContext ⟨exampleFS, []⟩ =
      some (Except.error ⟨Code.InvalidArgument, "only ephemeral volumes are supported"⟩,
        ⟨exampleFS, []⟩) ∧
    (⟨exampleFS, []⟩ : World FS) = ⟨exampleFS, []⟩ :=
  ⟨by rfl,
    (invalid_argument_no_effect exampleDriver linux).1 exampleRequestNoContext
      ⟨exampleFS, []⟩ ⟨exampleFS, []⟩
      ⟨Code.InvalidArgument, "only ephemeral volumes are supported"⟩ (by rfl) (by rfl)⟩

/-- Witness of `publish_sequence`: the concrete scenario on the example directory tree;
mkdir and mount both succeed and the result is the empty response. -/
theorem publish_sequence_witness :
    passesValidation exampleRequest = true ∧
    exampleDriver.NodePublishVolume linux exampleRequest ⟨exampleFS, []⟩ =
      some (Except.ok {},
        ⟨⟨["pods", "p1", "mount"] :: exampleFS.dirs,
            [⟨["pods", "p1", "mount"], ["run", "spire", "sockets"], false⟩]⟩,
          [OSCall.mkdir "/pods/p1/mount" 0o777,
            OSCall.mount "/run/spire/sockets" "/pods/p1/mount" "none" 4097 ""]⟩) :=
  ⟨by decide,
    ((publish_sequence exampleDriver linux exampleRequest ⟨exampleFS, []⟩ (by decide)).2
      (Or.inl (by decide))).2 (by decide)⟩

/-- Witness of `unpublish_sequence`: unpublish of a path on which nothing is mounted
returns `Internal` after the one unmount call and leaves the directory tree as it was. -/
theorem unpublish_sequence_witness :
    exampleUnpublish.VolumeId ≠ "" ∧ exampleUnpublish.TargetPath ≠ "" ∧
    ∃ msg, exampleDriver.NodeUnpublishVolume linux exampleUnpublish ⟨exampleFS, []⟩ =
      some (Except.error ⟨Code.Internal, msg⟩,
        ⟨exampleFS, [] ++ [OSCall.unmount exampleUnpublish.TargetPath 0]⟩) :=
  ⟨by decide, by decide,
    (unpublish_sequence exampleDriver linux exampleUnpublish ⟨exampleFS, []⟩
      (by decide) (by decide)).2.2.2 exampleFS [] (by decide)⟩

/-- Witness of `implementations_agree`: driver and plugin configured with the same
socket directory, on the concrete scenario. -/
theorem implementations_agree_witness :
    examplePlugin.config.SocketDir = exampleDriver.WorkloadAPIDir ∧
    (examplePlugin.nodePublishVolume linux exampleRequest ⟨exampleFS, []⟩).map
        (fun out => (outcomeClass out.1, out.2)) =
      (exampleDriver.NodePublishVolume linux exampleRequest ⟨exampleFS, []⟩).map
        (fun out => (outcomeClass out.1, out.2)) :=
  ⟨by decide,
    (implementations_agree exampleDriver examplePlugin linux (by decide)).1 exampleRequest
      ⟨exampleFS, []⟩⟩
